import Mathlib

/-!
# Verification of the gene-information retrieval subsystem (`day04/business.py`)

A shallow embedding of the gene CLI business layer: the JSON-like value
model, the `GeneCache` store, the four source-adapter functions and the
`get_gene_data` resolver, together with theorems settling the frozen
claims about them.

Python values are modelled by the inductive type `Val` (JSON fragment:
strings, integers, `None`, lists, dicts).  Dicts are association lists
preserving insertion order, with Python semantics for lookup, `in`,
item assignment and `del`.  Network I/O is modelled by an environment
(`Env`) that fixes the response each HTTP endpoint would give during one
resolution; the adapter bodies are translated faithfully from the source
over those responses.  File persistence is modelled by the `disk` field
of `GeneCache` plus a `saveOk` flag (a failing save is swallowed, as in
the source).  A trace of I/O effects is returned by the resolver so that
ordering claims ("before any I/O") can be stated.
-/

set_option maxHeartbeats 1600000

namespace GeneBusiness

/-- JSON-like Python value: `str`, `int`, `None`, `list`, `dict`. -/
inductive Val where
  | str (s : String)
  | int (n : Int)
  | null
  | arr (xs : List Val)
  | obj (fields : List (String × Val))
deriving Repr

/-- A Python dict with string keys, as an insertion-ordered association list. -/
abbrev Dict := List (String × Val)

mutual

/-- Decidable equality on `Val` (boolean form). -/
def Val.beq : Val → Val → Bool
  | Val.str a, Val.str b => a = b
  | Val.int a, Val.int b => a = b
  | Val.null, Val.null => true
  | Val.arr a, Val.arr b => Val.beqList a b
  | Val.obj a, Val.obj b => Val.beqFields a b
  | _, _ => false

/-- Elementwise equality of value lists. -/
def Val.beqList : List Val → List Val → Bool
  | [], [] => true
  | x :: xs, y :: ys => Val.beq x y && Val.beqList xs ys
  | _, _ => false

/-- Elementwise equality of dict entry lists. -/
def Val.beqFields : List (String × Val) → List (String × Val) → Bool
  | [], [] => true
  | (k, v) :: xs, (l, w) :: ys => k = l && Val.beq v w && Val.beqFields xs ys
  | _, _ => false

end

mutual

theorem Val.beq_refl : (v : Val) → Val.beq v v = true
  | Val.str _ => by simp [Val.beq]
  | Val.int _ => by simp [Val.beq]
  | Val.null => by simp [Val.beq]
  | Val.arr xs => by simp [Val.beq, Val.beqList_refl xs]
  | Val.obj fs => by simp [Val.beq, Val.beqFields_refl fs]

theorem Val.beqList_refl : (xs : List Val) → Val.beqList xs xs = true
  | [] => by simp [Val.beqList]
  | x :: xs => by simp [Val.beqList, Val.beq_refl x, Val.beqList_refl xs]

theorem Val.beqFields_refl : (fs : List (String × Val)) → Val.beqFields fs fs = true
  | [] => by simp [Val.beqFields]
  | (k, v) :: fs => by simp [Val.beqFields, Val.beq_refl v, Val.beqFields_refl fs]

end

mutual

theorem Val.eq_of_beq : {a b : Val} → Val.beq a b = true → a = b
  | Val.str _, Val.str _, h => by
      simp [Val.beq] at h; simp [h]
  | Val.int _, Val.int _, h => by
      simp [Val.beq] at h; simp [h]
  | Val.null, Val.null, _ => rfl
  | Val.arr xs, Val.arr ys, h => by
      simp only [Val.beq] at h
      simp [Val.eqList_of_beq h]
  | Val.obj fs, Val.obj gs, h => by
      simp only [Val.beq] at h
      simp [Val.eqFields_of_beq h]
  | Val.str _, Val.int _, h => by simp [Val.beq] at h
  | Val.str _, Val.null, h => by simp [Val.beq] at h
  | Val.str _, Val.arr _, h => by simp [Val.beq] at h
  | Val.str _, Val.obj _, h => by simp [Val.beq] at h
  | Val.int _, Val.str _, h => by simp [Val.beq] at h
  | Val.int _, Val.null, h => by simp [Val.beq] at h
  | Val.int _, Val.arr _, h => by simp [Val.beq] at h
  | Val.int _, Val.obj _, h => by simp [Val.beq] at h
  | Val.null, Val.str _, h => by simp [Val.beq] at h
  | Val.null, Val.int _, h => by simp [Val.beq] at h
  | Val.null, Val.arr _, h => by simp [Val.beq] at h
  | Val.null, Val.obj _, h => by simp [Val.beq] at h
  | Val.arr _, Val.str _, h => by simp [Val.beq] at h
  | Val.arr _, Val.int _, h => by simp [Val.beq] at h
  | Val.arr _, Val.null, h => by simp [Val.beq] at h
  | Val.arr _, Val.obj _, h => by simp [Val.beq] at h
  | Val.obj _, Val.str _, h => by simp [Val.beq] at h
  | Val.obj _, Val.int _, h => by simp [Val.beq] at h
  | Val.obj _, Val.null, h => by simp [Val.beq] at h
  | Val.obj _, Val.arr _, h => by simp [Val.beq] at h

theorem Val.eqList_of_beq : {xs ys : List Val} → Val.beqList xs ys = true → xs = ys
  | [], [], _ => rfl
  | x :: xs, y :: ys, h => by
      simp only [Val.beqList, Bool.and_eq_true] at h
      simp [Val.eq_of_beq h.1, Val.eqList_of_beq h.2]
  | [], _ :: _, h => by simp [Val.beqList] at h
  | _ :: _, [], h => by simp [Val.beqList] at h

theorem Val.eqFields_of_beq : {fs gs : List (String × Val)} → Val.beqFields fs gs = true → fs = gs
  | [], [], _ => rfl
  | (k, v) :: fs, (l, w) :: gs, h => by
      simp only [Val.beqFields, Bool.and_eq_true, decide_eq_true_eq] at h
      simp [h.1.1, Val.eq_of_beq h.1.2, Val.eqFields_of_beq h.2]
  | [], _ :: _, h => by simp [Val.beqFields] at h
  | _ :: _, [], h => by simp [Val.beqFields] at h

end

instance : DecidableEq Val := fun a b =>
  if h : Val.beq a b = true then
    Decidable.isTrue (Val.eq_of_beq h)
  else
    Decidable.isFalse (fun he => h (he ▸ Val.beq_refl a))

/-! ## Python string primitives (`str.strip`, `str.upper`, `str.lower`)

Gene symbols are ASCII; `Char.toUpper`/`Char.toLower` from core Lean agree
with Python's `str.upper`/`str.lower` on ASCII, and `Char.isWhitespace`
covers the whitespace Python's `str.strip` removes from such inputs. -/

/-- Python `s.strip()` on a character list: drop whitespace at both ends. -/
def pyStripList (xs : List Char) : List Char :=
  ((xs.dropWhile Char.isWhitespace).reverse.dropWhile Char.isWhitespace).reverse

/-- Python `s.strip()`. -/
def pyStrip (s : String) : String := ⟨pyStripList s.data⟩

/-- Python `s.upper()`. -/
def pyUpper (s : String) : String := ⟨s.data.map Char.toUpper⟩

/-- Python `s.lower()`. -/
def pyLower (s : String) : String := ⟨s.data.map Char.toLower⟩

theorem char_eq_iff_toNat (c d : Char) : c = d ↔ c.toNat = d.toNat := by
  constructor
  · rintro rfl; rfl
  · intro h
    apply Char.ext
    have hn : c.val.toNat = d.val.toNat := h
    exact UInt32.toNat.inj hn

theorem char_ws_iff (c : Char) : c.isWhitespace = true ↔
    (c.toNat = 32 ∨ c.toNat = 9 ∨ c.toNat = 13 ∨ c.toNat = 10) := by
  simp only [Char.isWhitespace, Bool.or_eq_true, decide_eq_true_eq]
  rw [char_eq_iff_toNat, char_eq_iff_toNat, char_eq_iff_toNat, char_eq_iff_toNat]
  simp only [show (' ' : Char).toNat = 32 from rfl, show ('\t' : Char).toNat = 9 from rfl,
    show ('\x0d' : Char).toNat = 13 from rfl, show ('\n' : Char).toNat = 10 from rfl]
  tauto

theorem char_toNat_ofNat_valid (n : Nat) (h : n.isValidChar) : (Char.ofNat n).toNat = n := by
  simp only [Char.ofNat, dif_pos h]
  rfl

theorem charUpper_charUpper (c : Char) : c.toUpper.toUpper = c.toUpper := by
  simp only [Char.toUpper]
  split
  · next h =>
    simp only [ge_iff_le, Bool.and_eq_true, decide_eq_true_eq] at h
    have hv : (c.toNat - 32).isValidChar := by
      simp only [Nat.isValidChar]; omega
    have ht : (Char.ofNat (c.toNat - 32)).toNat = c.toNat - 32 :=
      char_toNat_ofNat_valid _ hv
    rw [if_neg]
    simp only [ht, ge_iff_le, Bool.and_eq_true, decide_eq_true_eq, not_and, not_le]
    omega
  · rfl

theorem charUpper_charLower (c : Char) : c.toLower.toUpper = c.toUpper := by
  simp only [Char.toLower, Char.toUpper]
  split
  · next h =>
    simp only [ge_iff_le, Bool.and_eq_true, decide_eq_true_eq] at h
    have hv : (c.toNat + 32).isValidChar := by
      simp only [Nat.isValidChar]; omega
    have ht : (Char.ofNat (c.toNat + 32)).toNat = c.toNat + 32 :=
      char_toNat_ofNat_valid _ hv
    rw [if_pos (by rw [ht]; omega), if_neg (by omega)]
    rw [ht]
    have hn : c.toNat + 32 - 32 = c.toNat := by omega
    rw [hn, Char.ofNat_toNat]
  · rfl

theorem charWs_charUpper (c : Char) : c.toUpper.isWhitespace = c.isWhitespace := by
  simp only [Char.toUpper]
  split
  · next h =>
    simp only [ge_iff_le, Bool.and_eq_true, decide_eq_true_eq] at h
    have hv : (c.toNat - 32).isValidChar := by
      simp only [Nat.isValidChar]; omega
    have ht : (Char.ofNat (c.toNat - 32)).toNat = c.toNat - 32 :=
      char_toNat_ofNat_valid _ hv
    have h1 : (Char.ofNat (c.toNat - 32)).isWhitespace = false := by
      rw [Bool.eq_false_iff]
      intro hw
      rw [char_ws_iff, ht] at hw
      omega
    have h2 : c.isWhitespace = false := by
      rw [Bool.eq_false_iff]
      intro hw
      rw [char_ws_iff] at hw
      omega
    rw [h1, h2]
  · rfl

theorem charWs_charLower (c : Char) : c.toLower.isWhitespace = c.isWhitespace := by
  simp only [Char.toLower]
  split
  · next h =>
    simp only [ge_iff_le, Bool.and_eq_true, decide_eq_true_eq] at h
    have hv : (c.toNat + 32).isValidChar := by
      simp only [Nat.isValidChar]; omega
    have ht : (Char.ofNat (c.toNat + 32)).toNat = c.toNat + 32 :=
      char_toNat_ofNat_valid _ hv
    have h1 : (Char.ofNat (c.toNat + 32)).isWhitespace = false := by
      rw [Bool.eq_false_iff]
      intro hw
      rw [char_ws_iff, ht] at hw
      omega
    have h2 : c.isWhitespace = false := by
      rw [Bool.eq_false_iff]
      intro hw
      rw [char_ws_iff] at hw
      omega
    rw [h1, h2]
  · rfl

theorem pyStripList_map (f : Char → Char) (hf : ∀ c, (f c).isWhitespace = c.isWhitespace)
    (xs : List Char) : pyStripList (xs.map f) = (pyStripList xs).map f := by
  have hp : (Char.isWhitespace ∘ f) = Char.isWhitespace := funext hf
  simp only [pyStripList, List.dropWhile_map, hp, ← List.map_reverse]

theorem pyUpper_pyStrip_pyLower (s : String) : pyUpper (pyStrip (pyLower s)) = pyUpper (pyStrip s) := by
  simp only [pyUpper, pyStrip, pyLower]
  rw [pyStripList_map _ charWs_charLower]
  simp only [List.map_map]
  congr 1
  exact List.map_congr_left (fun c _ => charUpper_charLower c)

theorem pyUpper_pyStrip_pyUpper (s : String) : pyUpper (pyStrip (pyUpper s)) = pyUpper (pyStrip s) := by
  simp only [pyUpper, pyStrip]
  rw [pyStripList_map _ charWs_charUpper]
  simp only [List.map_map]
  congr 1
  exact List.map_congr_left (fun c _ => charUpper_charUpper c)

theorem pyUpper_pyUpper (s : String) : pyUpper (pyUpper s) = pyUpper s := by
  simp only [pyUpper, List.map_map]
  congr 1
  exact List.map_congr_left (fun c _ => charUpper_charUpper c)

/-! ## Python dict and truthiness primitives -/

/-- `d[k]` lookup: value of the first entry with key `k`, if any. -/
def dlookup : Dict → String → Option Val
  | [], _ => none
  | (k', v') :: rest, k => if k' = k then some v' else dlookup rest k

/-- `k in d`. -/
def hasKey (d : Dict) (k : String) : Bool := (dlookup d k).isSome

/-- `d.get(k)` with Python's `None` default collapsed into `Val.null`. -/
def pyGet (d : Dict) (k : String) : Val := (dlookup d k).getD Val.null

/-- `d[k] = v`: replace the value in place if the key exists, else append. -/
def pyInsert : Dict → String → Val → Dict
  | [], k, v => [(k, v)]
  | (k', v') :: rest, k, v => if k' = k then (k', v) :: rest else (k', v') :: pyInsert rest k v

/-- `{**d, **kvs}`-style update: assign each pair of `kvs` into `d` in order
(Python `dict.update` / dict-literal merge semantics). -/
def pyInsertAll (d : Dict) (kvs : List (String × Val)) : Dict :=
  kvs.foldl (fun acc kv => pyInsert acc kv.1 kv.2) d

/-- `del d[k]`: remove the first entry with key `k`. -/
def pyErase : Dict → String → Dict
  | [], _ => []
  | (k', v') :: rest, k => if k' = k then rest else (k', v') :: pyErase rest k

/-- Python truthiness of a value (`bool(v)`). -/
def truthy : Val → Bool
  | Val.str s => s ≠ ""
  | Val.int n => n ≠ 0
  | Val.null => false
  | Val.arr xs => ¬xs.isEmpty
  | Val.obj fs => ¬fs.isEmpty

/-- Python `a or b`. -/
def pyOr (a b : Val) : Val := if truthy a then a else b

/-! ### Dict lemmas -/

theorem dlookup_pyInsert_self (d : Dict) (k : String) (v : Val) :
    dlookup (pyInsert d k v) k = some v := by
  induction d with
  | nil => simp [pyInsert, dlookup]
  | cons kv rest ih =>
    obtain ⟨k', v'⟩ := kv
    by_cases h : k' = k
    · simp [pyInsert, h, dlookup]
    · simp [pyInsert, h, dlookup, ih]

theorem dlookup_pyInsert_ne (d : Dict) (k k' : String) (v : Val) (h : k' ≠ k) :
    dlookup (pyInsert d k v) k' = dlookup d k' := by
  have hkk : ¬(k = k') := fun he => h he.symm
  induction d with
  | nil => simp [pyInsert, dlookup, hkk]
  | cons kv rest ih =>
    obtain ⟨k0, v0⟩ := kv
    by_cases h0 : k0 = k
    · subst h0
      simp [pyInsert, dlookup, hkk]
    · by_cases h1 : k0 = k'
      · simp [pyInsert, h0, dlookup, h1, h]
      · simp [pyInsert, h0, dlookup, h1, ih]

theorem hasKey_pyInsert (d : Dict) (k k' : String) (v : Val) :
    hasKey (pyInsert d k v) k' = (k' = k || hasKey d k') := by
  by_cases h : k' = k
  · subst h
    simp [hasKey, dlookup_pyInsert_self]
  · simp [hasKey, dlookup_pyInsert_ne d k k' v h, h]

theorem keys_pyInsert (d : Dict) (k : String) (v : Val) :
    (pyInsert d k v).map Prod.fst = if hasKey d k then d.map Prod.fst else d.map Prod.fst ++ [k] := by
  induction d with
  | nil => simp [pyInsert, hasKey, dlookup]
  | cons kv rest ih =>
    obtain ⟨k0, v0⟩ := kv
    by_cases h0 : k0 = k
    · simp [pyInsert, h0, hasKey, dlookup]
    · simp only [pyInsert, if_neg h0, List.map_cons, hasKey, dlookup, if_neg h0, ih]
      by_cases hk : hasKey rest k
      · simp [hasKey] at hk
        simp [hk]
      · simp [hasKey] at hk
        simp [hk]

theorem hasKey_iff_mem_keys (d : Dict) (k : String) :
    hasKey d k = true ↔ k ∈ d.map Prod.fst := by
  induction d with
  | nil => simp [hasKey, dlookup]
  | cons kv rest ih =>
    obtain ⟨k0, v0⟩ := kv
    by_cases h0 : k0 = k
    · simp [hasKey, dlookup, h0]
    · simp only [hasKey, dlookup, if_neg h0, List.map_cons, List.mem_cons]
      rw [← hasKey]
      rw [ih]
      constructor
      · exact Or.inr
      · rintro (h | h)
        · exact absurd h.symm h0
        · exact h

theorem nodupKeys_pyInsert (d : Dict) (k : String) (v : Val)
    (h : (d.map Prod.fst).Nodup) : ((pyInsert d k v).map Prod.fst).Nodup := by
  rw [keys_pyInsert]
  by_cases hk : hasKey d k
  · simp [hk, h]
  · rw [if_neg hk, List.nodup_append]
    refine ⟨h, List.nodup_singleton k, ?_⟩
    intro a ha hb
    simp only [List.mem_singleton] at hb
    subst hb
    exact absurd ((hasKey_iff_mem_keys d a).mpr ha) (by simpa using hk)

theorem pyInsert_ne_nil (d : Dict) (k : String) (v : Val) : pyInsert d k v ≠ [] := by
  cases d with
  | nil => simp [pyInsert]
  | cons kv rest =>
    obtain ⟨k0, v0⟩ := kv
    by_cases h : k0 = k <;> simp [pyInsert, h]

theorem pyInsertAll_cons (d : Dict) (kv : String × Val) (rest : List (String × Val)) :
    pyInsertAll d (kv :: rest) = pyInsertAll (pyInsert d kv.1 kv.2) rest := rfl

theorem dlookup_pyInsertAll_not_hasKey (kvs : List (String × Val)) (d : Dict) (k : String)
    (h : hasKey kvs k = false) : dlookup (pyInsertAll d kvs) k = dlookup d k := by
  induction kvs generalizing d with
  | nil => rfl
  | cons kv rest ih =>
    obtain ⟨k0, v0⟩ := kv
    have h0 : ¬(k0 = k) := by
      intro he
      simp [hasKey, dlookup, he] at h
    have hr : hasKey rest k = false := by
      simpa [hasKey, dlookup, h0] using h
    rw [pyInsertAll_cons, ih _ hr, dlookup_pyInsert_ne _ _ _ _ (fun he => h0 he.symm)]

theorem dlookup_pyInsertAll_hasKey (kvs : List (String × Val)) (d : Dict) (k : String)
    (hnd : (kvs.map Prod.fst).Nodup) (h : hasKey kvs k = true) :
    dlookup (pyInsertAll d kvs) k = dlookup kvs k := by
  induction kvs generalizing d with
  | nil => simp [hasKey, dlookup] at h
  | cons kv rest ih =>
    obtain ⟨k0, v0⟩ := kv
    rw [pyInsertAll_cons]
    by_cases h0 : k0 = k
    · subst h0
      have hr : hasKey rest k0 = false := by
        rw [Bool.eq_false_iff]
        intro hk
        simp only [List.map_cons, List.nodup_cons] at hnd
        exact hnd.1 ((hasKey_iff_mem_keys rest k0).mp hk)
      rw [dlookup_pyInsertAll_not_hasKey _ _ _ hr, dlookup_pyInsert_self]
      simp [dlookup]
    · have hr : hasKey rest k = true := by
        simpa [hasKey, dlookup, h0] using h
      rw [ih _ (by simp only [List.map_cons, List.nodup_cons] at hnd; exact hnd.2) hr]
      simp [dlookup, h0]

theorem hasKey_pyInsertAll (d : Dict) (kvs : List (String × Val)) (k : String) :
    hasKey (pyInsertAll d kvs) k = (hasKey d k || hasKey kvs k) := by
  induction kvs generalizing d with
  | nil => simp [pyInsertAll, hasKey, dlookup]
  | cons kv rest ih =>
    obtain ⟨k0, v0⟩ := kv
    rw [pyInsertAll_cons, ih, hasKey_pyInsert]
    by_cases h0 : k0 = k
    · subst h0
      simp [hasKey, dlookup]
    · have hne : ¬(k = k0) := fun he => h0 he.symm
      simp [hasKey, dlookup, h0, hne, Bool.or_assoc]

theorem pyInsertAll_ne_nil (kvs : List (String × Val)) (d : Dict) (hd : d ≠ []) :
    pyInsertAll d kvs ≠ [] := by
  induction kvs generalizing d with
  | nil => exact hd
  | cons kv rest ih =>
    rw [pyInsertAll_cons]
    exact ih _ (pyInsert_ne_nil d kv.1 kv.2)

theorem dlookup_pyErase_self (d : Dict) (k : String) (hnd : (d.map Prod.fst).Nodup) :
    dlookup (pyErase d k) k = none := by
  induction d with
  | nil => simp [pyErase, dlookup]
  | cons kv rest ih =>
    obtain ⟨k0, v0⟩ := kv
    simp only [List.map_cons, List.nodup_cons] at hnd
    by_cases h0 : k0 = k
    · subst h0
      simp only [pyErase, if_pos rfl]
      cases hk : dlookup rest k0 with
      | none => exact hk
      | some v =>
        exact absurd ((hasKey_iff_mem_keys rest k0).mp (by simp [hasKey, hk])) hnd.1
    · simp [pyErase, h0, dlookup, ih hnd.2]

/-! ## The cache store (`GeneCache`)

`data` is the in-memory `_data` dict, `disk` the JSON document on disk,
`saveOk` whether a `_save` succeeds (a failing save is swallowed by the
source).  I/O is reported in an effect trace. -/

/-- One observable I/O action of the business layer. -/
inductive Effect where
  | cacheFileRead
  | cacheFileWrite
  | callGenecards
  | callNcbiDetails
  | callEntrezInfo
  | callEntrezSummary
deriving Repr, DecidableEq

structure GeneCache where
  data : Dict
  disk : Dict
  saveOk : Bool
deriving Repr, DecidableEq

/-- `GeneCache._save`: write the whole dict; a failure is swallowed
(the write is attempted either way, so an effect is always recorded). -/
def GeneCache.save (c : GeneCache) : GeneCache × List Effect :=
  if c.saveOk then ({ c with disk := c.data }, [Effect.cacheFileWrite])
  else (c, [Effect.cacheFileWrite])

/-- Legacy-format test from `GeneCache.get`:
`isinstance(val, dict) and "summary" not in val and "data" in val`. -/
def isLegacy : Val → Bool
  | Val.obj fs => !hasKey fs "summary" && hasKey fs "data"
  | _ => false

/-- `GeneCache.get`: uppercase the key, treat falsy entries as absent,
drop (and persist the drop of) legacy-shaped entries. -/
def GeneCache.get (c : GeneCache) (gene : String) : Option Val × GeneCache × List Effect :=
  let k := pyUpper gene
  match dlookup c.data k with
  | none => (none, c, [])
  | some v =>
    if !truthy v then (none, c, [])
    else if isLegacy v then
      let (c2, tr) := GeneCache.save { c with data := pyErase c.data k }
      (none, c2, tr)
    else (some v, c, [])

/-- `GeneCache.set`: store `{"fetched_at": now, **value}` under the
uppercased key, then save. -/
def GeneCache.set (c : GeneCache) (gene : String) (value : Dict) (now : Nat) : GeneCache × List Effect :=
  let stored := pyInsertAll [("fetched_at", Val.int now)] value
  GeneCache.save { c with data := pyInsert c.data (pyUpper gene) (Val.obj stored) }

/-! ## Python dynamic operations that may raise

`Py α` is a computation that either yields `α` or raises some Python
exception (`TypeError`, `KeyError`, `AttributeError`, ... — collapsed to
`Unit` since the adapters catch bare `Exception`). -/

abbrev Py (α : Type) := Except Unit α

/-- `len(v)`. -/
def pyLen : Val → Py Nat
  | Val.arr xs => pure xs.length
  | Val.str s => pure s.length
  | Val.obj fs => pure fs.length
  | _ => throw ()

/-- `v[i]` for a natural index (lists and strings; anything else raises,
including dicts, whose keys here are strings). -/
def pyIndexNat : Val → Nat → Py Val
  | Val.arr xs, i =>
    match xs[i]? with
    | some v => pure v
    | none => throw ()
  | Val.str s, i =>
    match s.data[i]? with
    | some c => pure (Val.str (String.mk [c]))
    | none => throw ()
  | _, _ => throw ()

/-- `for x in v`: the sequence of iterated values. -/
def pyIter : Val → Py (List Val)
  | Val.arr xs => pure xs
  | Val.str s => pure (s.data.map (fun c => Val.str (String.mk [c])))
  | Val.obj fs => pure (fs.map (fun kv => Val.str kv.1))
  | _ => throw ()

/-- `v.get(k)` (only dicts have `.get`; `AttributeError` otherwise). -/
def pyGetMethod : Val → String → Py Val
  | Val.obj fs, k => pure (pyGet fs k)
  | _, _ => throw ()

/-- `v.get(k, default)`. -/
def pyGetMethodD : Val → String → Val → Py Val
  | Val.obj fs, k, dflt => pure ((dlookup fs k).getD dflt)
  | _, _, _ => throw ()

/-- Substring test (`needle in haystack` for strings). -/
def isSubstr (needle hay : String) : Bool :=
  hay.data.tails.any (fun t => needle.data.isPrefixOf t)

/-- `k in v` membership test. -/
def pyIn (k : String) : Val → Py Bool
  | Val.obj fs => pure (hasKey fs k)
  | Val.arr xs => pure (xs.any (fun x => decide (x = Val.str k)))
  | Val.str s => pure (isSubstr k s)
  | _ => throw ()

/-- `v.upper()` needs a string (`AttributeError` otherwise). -/
def pyStrOf : Val → Py String
  | Val.str s => pure s
  | _ => throw ()

/-- `d.get(key)` where `key` is itself a Python value: string keys look
up, other hashable keys miss (the dicts here have string keys),
unhashable keys raise. -/
def pyDictGetVal : Val → Val → Py Val
  | Val.obj fs, Val.str s => pure (pyGet fs s)
  | Val.obj _, Val.int _ => pure Val.null
  | Val.obj _, Val.null => pure Val.null
  | Val.obj _, _ => throw ()
  | _, _ => throw ()

/-- Parse a nonempty all-digit character list as a natural number. -/
def parseDigits (ds : List Char) : Option Nat :=
  if ds.isEmpty then none
  else if ds.all (fun c => c.isDigit) then
    some (ds.foldl (fun acc c => acc * 10 + (c.toNat - 48)) 0)
  else none

/-- `int(v)` as used on gene ids: an int passes through, a string is
parsed as an optionally signed decimal integer after stripping
whitespace, anything else fails (`None` models the raised
`ValueError`/`TypeError`). -/
def pyIntOf : Val → Option Int
  | Val.int n => some n
  | Val.str s =>
    match pyStripList s.data with
    | '-' :: ds => (parseDigits ds).map (fun n => -(n : Int))
    | '+' :: ds => (parseDigits ds).map (fun n => (n : Int))
    | ds => (parseDigits ds).map (fun n => (n : Int))
  | _ => none

/-- `str(v)` as used when interpolating into URLs and request params. -/
def valPyStr : Val → String
  | Val.str s => s
  | Val.int n => toString n
  | Val.null => "None"
  | Val.arr _ => "[...]"
  | Val.obj _ => "\x7b...\x7d"

/-! ## The network environment and the source adapters -/

/-- Outcome of the GeneALaCart HTTP request: a network-level failure, or
a response carrying a `Content-Type` header value and a body that either
decodes as JSON (`some v`) or does not (`none`). -/
inductive GCResponse where
  | netError (msg : String)
  | resp (contentType : String) (body : Option Val)

/-- One resolution's network environment: what each upstream endpoint
would answer.  `none` for the ClinicalTables / esearch responses means
the request, its status check or its JSON decoding raised; `esummaryResp`
is keyed by the stringified id parameter. -/
structure Env where
  gcResp : GCResponse
  ctResp : Option Val
  esearchResp : Option Val
  esummaryResp : String → Option Val
  defaultFile : Option Dict
  defaultSaveOk : Bool

/-- `fetch_gene_from_genecards`: on a non-JSON content type, still try to
decode the body and only raise (`.error` = `RuntimeError`) if that fails. -/
def fetch_gene_from_genecards (r : GCResponse) : Except String Val :=
  match r with
  | GCResponse.netError msg =>
    Except.error ("Network error while contacting GeneALaCart: " ++ msg)
  | GCResponse.resp ct body =>
    if isSubstr "application/json" (pyLower ct) then
      match body with
      | some v => Except.ok v
      | none => Except.error "Failed to decode JSON from GeneALaCart"
    else
      match body with
      | some v => Except.ok v
      | none => Except.error "GeneALaCart did not return JSON (likely requires authentication)."

/-- The `ef_hash.get(name)[idx] if ef_hash and name in ef_hash and idx < len(ef_hash.get(name)) else None`
extraction in `fetch_details_via_ncbi`. -/
def efField (ef_hash : Val) (name : String) (idx : Nat) : Py Val := do
  if truthy ef_hash then
    let isIn ← pyIn name ef_hash
    if isIn then
      let g ← pyGetMethod ef_hash name
      let lg ← pyLen g
      if idx < lg then
        let g2 ← pyGetMethod ef_hash name
        pyIndexNat g2 idx
      else
        pure Val.null
    else
      pure Val.null
  else
    pure Val.null

/-- The `for idx, disp in enumerate(displays)` scan of
`fetch_details_via_ncbi`: first candidate whose symbol matches the query
exactly (case-insensitively) yields the details dict; `none` means the
loop finished (gene not found). -/
def scanDisplays (gene : String) (ef_hash : Val) : List Val → Nat → Py (Option Dict)
  | [], _ => pure none
  | disp :: rest, idx => do
    let ld ← pyLen disp
    let sym ← if ld ≥ 1 then pyIndexNat disp 0 else pure Val.null
    let desc ← if ld ≥ 2 then pyIndexNat disp 1 else pure Val.null
    if truthy sym then
      let symS ← pyStrOf sym
      if pyUpper symS = pyUpper gene then
        let geneid ← efField ef_hash "GeneID" idx
        let chrom ← efField ef_hash "chromosome" idx
        let maploc ← efField ef_hash "map_location" idx
        pure (some [("symbol", sym), ("description", desc), ("geneid", geneid),
          ("chromosome", chrom), ("map_location", maploc)])
      else
        scanDisplays gene ef_hash rest (idx + 1)
    else
      scanDisplays gene ef_hash rest (idx + 1)

/-- Body of `fetch_details_via_ncbi` applied to the decoded JSON `j`:
`none` is the explicit "gene not found" raise, a `Py`-level raise is any
other exception (mapped to not-found by the caller). -/
def detailsBody (gene : String) (j : Val) : Py (Option Dict) := do
  let n ← pyLen j
  let codes ←
    if n > 1 then do
      let x ← pyIndexNat j 1
      pure (if x = Val.null then Val.arr [] else x)
    else
      pure (Val.arr [])
  let ef_hash ← if n > 2 then pyIndexNat j 2 else pure Val.null
  let displays ←
    if n > 3 then do
      let x ← pyIndexNat j 3
      pure (if x = Val.null then Val.arr [] else x)
    else
      pure (Val.arr [])
  if !truthy displays || !truthy codes then
    pure none
  else do
    let ds ← pyIter displays
    scanDisplays gene ef_hash ds 0

/-- `fetch_details_via_ncbi`: `.error msg` is a raised
`GeneNotFoundError msg`; both the explicit not-found raises and any other
exception (which the source converts to the network-error message) end up
as `.error`. -/
def fetch_details_via_ncbi (env : Env) (gene : String) : Except String Dict :=
  match env.ctResp with
  | none => Except.error ("Could not fetch gene " ++ gene ++ " from NCBI (network error)")
  | some j =>
    match detailsBody gene j with
    | Except.ok (some d) => Except.ok d
    | Except.ok none => Except.error ("Gene " ++ gene ++ " not found in NCBI database")
    | Except.error _ => Except.error ("Could not fetch gene " ++ gene ++ " from NCBI (network error)")

/-- Body of `fetch_summary_from_entrez` applied to the decoded esummary
JSON: the returned value is the `summary`/`Summary` field if truthy,
`Val.null` for the `return None` paths. -/
def entrezSummaryBody (j : Val) : Py Val := do
  let result ← pyGetMethodD j "result" (Val.obj [])
  let uidsRaw ← pyGetMethod result "uids"
  let uids := pyOr uidsRaw (Val.arr [])
  if !truthy uids then
    pure Val.null
  else do
    let uid ← pyIndexNat uids 0
    let infoRaw ← pyDictGetVal result uid
    let info := pyOr infoRaw (Val.obj [])
    let s1 ← pyGetMethod info "summary"
    let s2 ← pyGetMethod info "Summary"
    let summary := pyOr s1 s2
    if truthy summary then pure summary else pure Val.null

/-- `fetch_summary_from_entrez`: never raises; `Val.null` stands for the
Python `None` result. -/
def fetch_summary_from_entrez (env : Env) (geneid : Val) : Val :=
  match pyIntOf geneid with
  | none => Val.null
  | some n =>
    match env.esummaryResp (toString n) with
    | none => Val.null
    | some j =>
      match entrezSummaryBody j with
      | Except.ok v => v
      | Except.error _ => Val.null

/-- Body of `fetch_gene_info_via_entrez` applied to the decoded esearch
JSON (the second, esummary request is made inside). -/
def entrezInfoBody (env : Env) (gene : String) (j : Val) : Py (Option Dict) := do
  let result ← pyGetMethodD j "esearchresult" (Val.obj [])
  let idsRaw ← pyGetMethod result "idlist"
  let ids := pyOr idsRaw (Val.arr [])
  if !truthy ids then
    pure none
  else do
    let geneid ← pyIndexNat ids 0
    match env.esummaryResp (valPyStr geneid) with
    | none => throw ()
    | some j2 => do
      let result2 ← pyGetMethodD j2 "result" (Val.obj [])
      let infoRaw ← pyDictGetVal result2 geneid
      let info := pyOr infoRaw (Val.obj [])
      let nm ← pyGetMethod info "name"
      let symbol := pyOr nm (Val.str gene)
      let chromosome ← pyGetMethod info "chromosome"
      let maplocation ← pyGetMethod info "maplocation"
      let description ← pyGetMethod info "description"
      pure (some [("symbol", symbol), ("geneid", geneid), ("chromosome", chromosome),
        ("map_location", maplocation), ("description", description)])

/-- `fetch_gene_info_via_entrez`: never raises; all failures degrade to
`none`. -/
def fetch_gene_info_via_entrez (env : Env) (gene : String) : Option Dict :=
  match env.esearchResp with
  | none => none
  | some j =>
    match entrezInfoBody env gene j with
    | Except.ok r => r
    | Except.error _ => none

/-! ## The resolver (`get_gene_data`) -/

/-- The two exceptions `get_gene_data` lets escape. -/
inductive Err where
  | valueError (msg : String)
  | geneNotFound (msg : String)
deriving Repr, DecidableEq

/-- Result of one `get_gene_data` call: the raised exception or returned
value, the cache afterwards, and the I/O effects in program order. -/
structure RunResult where
  result : Except Err Val
  cache : GeneCache
  trace : List Effect
deriving Repr

/-- The first string-valued field among the candidate keys
`("summary", "GeneCards Summary", "description", "function")`. -/
def firstStrField (cfs : Dict) : List String → Option String
  | [] => none
  | k :: ks =>
    match dlookup cfs k with
    | some (Val.str s) => some s
    | _ => firstStrField cfs ks

/-- Summary extraction from a GeneALaCart payload
(`get_gene_data` lines 317–336): top-level string `summary` field, else a
nested candidate (the entry at the gene key, else the first value) with
one of a small list of known field names. -/
def extractSummary (gc : Val) (gene_key : String) : Option String :=
  match gc with
  | Val.obj fs =>
    match dlookup fs "summary" with
    | some (Val.str s) => some s
    | _ =>
      let candidate : Val :=
        if hasKey fs gene_key then pyGet fs gene_key
        else
          match fs with
          | [] => Val.null
          | (_, v) :: _ => v
      match candidate with
      | Val.obj cfs => firstStrField cfs ["summary", "GeneCards Summary", "description", "function"]
      | _ => none
  | _ => none

/-- The source-selection part of `get_gene_data`'s cache-miss path
(lines 313–369): try GeneALaCart, extract a summary, fall back through
ClinicalTables and Entrez; yields the details dict (if any), the `source`
tag, and the bound portal summary variable, or the raised
`GeneNotFoundError`.  The effect list records the adapter invocations. -/
def missSelect (env : Env) (gene_key : String) :
    Except Err (Option Dict × String × Option String) × List Effect :=
  match fetch_gene_from_genecards env.gcResp with
  | Except.error _ =>
    match fetch_details_via_ncbi env gene_key with
    | Except.ok d =>
      (Except.ok (some d, "ncbi", none), [Effect.callGenecards, Effect.callNcbiDetails])
    | Except.error _ =>
      match fetch_gene_info_via_entrez env gene_key with
      | some d =>
        (Except.ok (some d, "entrez", none),
          [Effect.callGenecards, Effect.callNcbiDetails, Effect.callEntrezInfo])
      | none =>
        (Except.error (Err.geneNotFound ("Gene " ++ gene_key ++ " not found")),
          [Effect.callGenecards, Effect.callNcbiDetails, Effect.callEntrezInfo])
  | Except.ok gc =>
    match extractSummary gc gene_key with
    | none =>
      match fetch_details_via_ncbi env gene_key with
      | Except.ok d =>
        (Except.ok (some d, "ncbi", none), [Effect.callGenecards, Effect.callNcbiDetails])
      | Except.error _ =>
        match fetch_gene_info_via_entrez env gene_key with
        | some d =>
          (Except.ok (some d, "entrez", none),
            [Effect.callGenecards, Effect.callNcbiDetails, Effect.callEntrezInfo])
        | none =>
          (Except.error (Err.geneNotFound ("Gene " ++ gene_key ++ " not found")),
            [Effect.callGenecards, Effect.callNcbiDetails, Effect.callEntrezInfo])
    | some s =>
      match fetch_details_via_ncbi env gene_key with
      | Except.ok d =>
        (Except.ok (some d, "genecards", some s), [Effect.callGenecards, Effect.callNcbiDetails])
      | Except.error _ =>
        match fetch_gene_info_via_entrez env gene_key with
        | some d =>
          (Except.ok (some d, "entrez", some s),
            [Effect.callGenecards, Effect.callNcbiDetails, Effect.callEntrezInfo])
        | none =>
          (Except.ok (none, "genecards", some s),
            [Effect.callGenecards, Effect.callNcbiDetails, Effect.callEntrezInfo])

/-- The record-normalisation part of `get_gene_data` (lines 371–418):
build `out`, merge the details, derive URLs, fetch the Entrez summary
when a gene id is present, and prefer a truthy portal summary. -/
def buildOut (env : Env) (now : Nat) (gene_key : String) (details : Option Dict)
    (source : String) (summary : Option String) : Dict × List Effect :=
  let out0 : Dict := [("symbol", Val.str gene_key), ("summary", Val.null),
    ("geneid", Val.null), ("chromosome", Val.null), ("map_location", Val.null),
    ("ncbi_url", Val.null), ("genecards_url", Val.null), ("source", Val.str source),
    ("fetched_at", Val.int now)]
  let out1 :=
    match details with
    | some d =>
      if !d.isEmpty then
        pyInsertAll out0 [("symbol", pyOr (pyGet d "symbol") (Val.str gene_key)),
          ("summary", pyGet d "description"), ("geneid", pyGet d "geneid"),
          ("chromosome", pyGet d "chromosome"), ("map_location", pyGet d "map_location")]
      else out0
    | none => out0
  let out2 :=
    if truthy (pyGet out1 "geneid") then
      pyInsert out1 "ncbi_url"
        (Val.str ("https://www.ncbi.nlm.nih.gov/gene/" ++ valPyStr (pyGet out1 "geneid")))
    else out1
  let out3 := pyInsert out2 "genecards_url"
    (Val.str ("https://www.genecards.org/cgi-bin/carddisp.pl?gene=" ++ valPyStr (pyGet out2 "symbol")))
  let outTr :=
    if truthy (pyGet out3 "geneid") then
      let es := fetch_summary_from_entrez env (pyGet out3 "geneid")
      (pyInsert out3 "entrez_summary" (if truthy es then es else Val.null),
        [Effect.callEntrezSummary])
    else
      (pyInsert out3 "entrez_summary" Val.null, ([] : List Effect))
  let out5 :=
    match summary with
    | some s => if s ≠ "" then pyInsert outTr.1 "summary" (Val.str s) else outTr.1
    | none => outTr.1
  (out5, outTr.2)

/-- `get_gene_data(gene, cache)`.  `cacheOpt = none` models the
`cache=None` default, which constructs a `GeneCache` from the default
path (reading the cache file) before anything else, including validation. -/
def getGeneData (env : Env) (now : Nat) (gene : String) (cacheOpt : Option GeneCache) : RunResult :=
  let init : GeneCache × List Effect :=
    match cacheOpt with
    | some c => (c, [])
    | none =>
      ({ data := env.defaultFile.getD [], disk := env.defaultFile.getD [],
         saveOk := env.defaultSaveOk }, [Effect.cacheFileRead])
  let cache0 := init.1
  let tr0 := init.2
  let gene_key := pyUpper (pyStrip gene)
  if gene_key = "" then
    ⟨Except.error (Err.valueError "Empty gene symbol"), cache0, tr0⟩
  else
    let g1 := GeneCache.get cache0 gene_key
    let cache1 := g1.2.1
    let tr1 := g1.2.2
    match g1.1 with
    | some cached =>
      match cached with
      | Val.obj fs =>
        if truthy (pyGet fs "geneid") && (pyGet fs "entrez_summary" = Val.null) then
          let entrez := fetch_summary_from_entrez env (pyGet fs "geneid")
          if truthy entrez then
            let fs2 := pyInsert fs "entrez_summary" entrez
            let s2 := GeneCache.set cache1 gene_key fs2 now
            ⟨Except.ok (Val.obj fs2), s2.1, tr0 ++ tr1 ++ [Effect.callEntrezSummary] ++ s2.2⟩
          else
            ⟨Except.ok cached, cache1, tr0 ++ tr1 ++ [Effect.callEntrezSummary]⟩
        else
          ⟨Except.ok cached, cache1, tr0 ++ tr1⟩
      | _ => ⟨Except.ok cached, cache1, tr0 ++ tr1⟩
    | none =>
      match missSelect env gene_key with
      | (Except.error e, trm) => ⟨Except.error e, cache1, tr0 ++ tr1 ++ trm⟩
      | (Except.ok (details, source, summary), trm) =>
        let b := buildOut env now gene_key details source summary
        let s2 := GeneCache.set cache1 gene_key b.1 now
        let g2 := GeneCache.get s2.1 gene_key
        ⟨Except.ok ((g2.1).getD Val.null), g2.2.1,
          tr0 ++ tr1 ++ trm ++ b.2 ++ s2.2 ++ g2.2.2⟩

deriving instance DecidableEq for Except

/-! ## Concrete scenario fixtures (used by witnesses and counterexamples) -/

/-- ClinicalTables response with an exact match for BRCA1 and no extra fields. -/
def ctFound : Val := Val.arr [Val.int 3, Val.arr [Val.str "HGNC:1099"], Val.null,
  Val.arr [Val.arr [Val.str "BRCA1", Val.str "BRCA1 DNA repair associated"]]]

/-- ClinicalTables response with no results. -/
def ctEmpty : Val := Val.arr [Val.int 0, Val.arr [], Val.null, Val.arr []]

/-- Entrez esearch response with one id hit. -/
def esearchHit : Val := Val.obj [("esearchresult", Val.obj [("idlist", Val.arr [Val.str "672"])])]

/-- Entrez esearch response with an empty id list. -/
def esearchMiss : Val := Val.obj [("esearchresult", Val.obj [("idlist", Val.arr [])])]

/-- Entrez esummary response for gene id 672. -/
def esumInfo : Val := Val.obj [("result", Val.obj [("uids", Val.arr [Val.str "672"]),
  ("672", Val.obj [("name", Val.str "BRCA1"), ("chromosome", Val.str "17"),
    ("maplocation", Val.str "17q21.31"), ("description", Val.str "BRCA1 DNA repair associated"),
    ("summary", Val.str "tumor suppressor summary")])])]

/-- Portal unusable, ClinicalTables exact match available. -/
def envNcbi : Env :=
  { gcResp := GCResponse.netError "boom", ctResp := some ctFound,
    esearchResp := some esearchMiss, esummaryResp := (fun _ => some esumInfo),
    defaultFile := none, defaultSaveOk := true }

/-- Portal unusable, ClinicalTables empty, Entrez esearch hit. -/
def envEntrez : Env :=
  { gcResp := GCResponse.netError "boom", ctResp := some ctEmpty,
    esearchResp := some esearchHit, esummaryResp := (fun _ => some esumInfo),
    defaultFile := none, defaultSaveOk := true }

/-- Every source fails or reports not-found. -/
def envNone : Env :=
  { gcResp := GCResponse.netError "boom", ctResp := some ctEmpty,
    esearchResp := some esearchMiss, esummaryResp := (fun _ => none),
    defaultFile := none, defaultSaveOk := true }

/-- Portal answers (wrong content type, decodable JSON body) with an
empty string in the `summary` field; both structured lookups fail. -/
def envPortalEmpty : Env :=
  { gcResp := GCResponse.resp "text/html" (some (Val.obj [("summary", Val.str "")])),
    ctResp := some ctEmpty, esearchResp := some esearchMiss, esummaryResp := (fun _ => none),
    defaultFile := none, defaultSaveOk := true }

/-- Portal answers with a non-empty summary; both structured lookups fail. -/
def envPortal : Env :=
  { gcResp := GCResponse.resp "text/html" (some (Val.obj [("summary", Val.str "portal summary")])),
    ctResp := some ctEmpty, esearchResp := some esearchMiss, esummaryResp := (fun _ => none),
    defaultFile := none, defaultSaveOk := true }

/-- Only the Entrez esummary endpoint answers (for enrichment runs). -/
def envEnrich : Env :=
  { gcResp := GCResponse.netError "boom", ctResp := none, esearchResp := none,
    esummaryResp := (fun _ => some esumInfo), defaultFile := none, defaultSaveOk := true }

def cacheEmpty : GeneCache := { data := [], disk := [], saveOk := true }

/-- A cache with one well-formed entry under the key `"BRCA1"`. -/
def cacheC9 : GeneCache :=
  { data := [("BRCA1", Val.obj [("summary", Val.str "ok")])], disk := [], saveOk := true }

/-- A cache holding one legacy-shaped entry (raw `data`, no `summary`). -/
def cacheLegacy : GeneCache :=
  { data := [("OLDGENE", Val.obj [("fetched_at", Val.int 12345), ("data", Val.str "old format")])],
    disk := [("OLDGENE", Val.obj [("fetched_at", Val.int 12345), ("data", Val.str "old format")])],
    saveOk := true }

/-- A resolver-created record with a gene id but no Entrez summary yet. -/
def cacheHit : GeneCache :=
  { data := [("BRCA1", Val.obj [("fetched_at", Val.int 42), ("symbol", Val.str "BRCA1"),
      ("summary", Val.str "x"), ("geneid", Val.str "672"), ("entrez_summary", Val.null)])],
    disk := [], saveOk := true }

/-- A hand-edited record lacking `fetched_at` that will be lazily enriched. -/
def cacheTampered : GeneCache :=
  { data := [("GENE1", Val.obj [("geneid", Val.str "672"), ("entrez_summary", Val.null),
      ("summary", Val.str "x")])], disk := [], saveOk := true }

/-! ## Supporting lemmas for the claims -/

theorem save_data (c : GeneCache) : (GeneCache.save c).1.data = c.data := by
  simp only [GeneCache.save]
  split <;> rfl

theorem save_saveOk (c : GeneCache) : (GeneCache.save c).1.saveOk = c.saveOk := by
  simp only [GeneCache.save]
  split <;> rfl

theorem hasKey_ne_nil (fs : Dict) (k : String) (h : hasKey fs k = true) : fs ≠ [] := by
  intro he
  subst he
  simp [hasKey, dlookup] at h

theorem truthy_obj_ne_nil (fs : Dict) (h : fs ≠ []) : truthy (Val.obj fs) = true := by
  simp [truthy, h]

theorem hasKey_pyInsert_of (d : Dict) (k k' : String) (v : Val) (h : hasKey d k = true) :
    hasKey (pyInsert d k' v) k = true := by
  rw [hasKey_pyInsert]
  simp [h]

theorem nodupKeys_pyInsertAll (kvs : List (String × Val)) (d : Dict)
    (h : (d.map Prod.fst).Nodup) : ((pyInsertAll d kvs).map Prod.fst).Nodup := by
  induction kvs generalizing d with
  | nil => exact h
  | cons kv rest ih =>
    rw [pyInsertAll_cons]
    exact ih _ (nodupKeys_pyInsert d kv.1 kv.2 h)

theorem cacheGet_of_dlookup_none (c : GeneCache) (k : String)
    (h : dlookup c.data (pyUpper k) = none) : GeneCache.get c k = (none, c, []) := by
  simp [GeneCache.get, h]

theorem cacheGet_of_falsy (c : GeneCache) (k : String) (v : Val)
    (h : dlookup c.data (pyUpper k) = some v) (htr : truthy v = false) :
    GeneCache.get c k = (none, c, []) := by
  simp [GeneCache.get, h, htr]

theorem cacheGet_of_legacy (c : GeneCache) (k : String) (v : Val)
    (h : dlookup c.data (pyUpper k) = some v) (htr : truthy v = true)
    (hleg : isLegacy v = true) :
    GeneCache.get c k =
      (none, (GeneCache.save { c with data := pyErase c.data (pyUpper k) }).1,
        (GeneCache.save { c with data := pyErase c.data (pyUpper k) }).2) := by
  simp [GeneCache.get, h, htr, hleg]

theorem cacheGet_of_found (c : GeneCache) (k : String) (v : Val)
    (h : dlookup c.data (pyUpper k) = some v) (htr : truthy v = true)
    (hleg : isLegacy v = false) :
    GeneCache.get c k = (some v, c, []) := by
  simp [GeneCache.get, h, htr, hleg]

theorem pyUpper_pyLower (s : String) : pyUpper (pyLower s) = pyUpper s := by
  simp only [pyUpper, pyLower, List.map_map]
  congr 1
  exact List.map_congr_left (fun c _ => charUpper_charLower c)

/-! ## The claims -/

/-- C9 (counterexample): `GeneCache.get` does **not** trim surrounding
whitespace — with an entry stored under `"BRCA1"`, `get(" brca1 ")`
misses (key `" BRCA1 "`) while `get("BRCA1")` hits, so they do not
consult the same entry as the claim asserts. -/
theorem claim_C9_cx :
    (GeneCache.get cacheC9 " brca1 ").1 = none ∧
    (GeneCache.get cacheC9 "BRCA1").1 = some (Val.obj [("summary", Val.str "ok")]) := by
  decide

/-- C9 (amended): `GeneCache.get` normalizes the key by uppercasing only
(no trim): for every cache and symbol, `get(s.lower())` and
`get(s.upper())` behave exactly like `get(s)`; surrounding whitespace is
not removed (that is done by the resolver before the cache is consulted). -/
theorem claim_C9 (c : GeneCache) (s : String) :
    GeneCache.get c (pyLower s) = GeneCache.get c s ∧
    GeneCache.get c (pyUpper s) = GeneCache.get c s := by
  constructor
  · simp only [GeneCache.get, pyUpper_pyLower]
  · simp only [GeneCache.get, pyUpper_pyUpper]

/-- C5 (counterexample): the round trip fails for a legacy-shaped field
map — `set(k, {"data": "x"})` stores a value with a `data` field and no
`summary` field, which `get` treats as absent (and deletes), so no record
containing the fields of `v` is returned. -/
theorem claim_C5_cx :
    (GeneCache.get (GeneCache.set cacheEmpty "G" [("data", Val.str "x")] 5).1 "G").1 = none := by
  decide

/-- C5 (amended): for every key `k` and duplicate-free field map `v`
that is not legacy-shaped (it has a `summary` field or no `data` field),
`set(k, v)` then `get(k)` returns a record containing every field of `v`
with its value from `v`, plus a `fetched_at` field holding the integer
timestamp of the `set` whenever `v` does not itself carry a `fetched_at`
field (a `fetched_at` in `v` overrides the stamp). -/
theorem claim_C5 (c : GeneCache) (k : String) (v : Dict) (now : Nat)
    (hnd : (v.map Prod.fst).Nodup)
    (hleg : hasKey v "summary" = true ∨ hasKey v "data" = false) :
    (GeneCache.get (GeneCache.set c k v now).1 k).1 =
      some (Val.obj (pyInsertAll [("fetched_at", Val.int now)] v)) ∧
    (∀ kv ∈ v, dlookup (pyInsertAll [("fetched_at", Val.int now)] v) kv.1 = dlookup v kv.1) ∧
    (hasKey v "fetched_at" = false →
      dlookup (pyInsertAll [("fetched_at", Val.int now)] v) "fetched_at" = some (Val.int now)) := by
  have hstamp : ([("fetched_at", Val.int now)] : Dict) ≠ [] := by simp
  have hne : pyInsertAll [("fetched_at", Val.int now)] v ≠ [] := pyInsertAll_ne_nil v _ hstamp
  refine ⟨?_, ?_, ?_⟩
  · have hdata : (GeneCache.set c k v now).1.data =
        pyInsert c.data (pyUpper k) (Val.obj (pyInsertAll [("fetched_at", Val.int now)] v)) := by
      simp only [GeneCache.set, save_data]
    simp only [GeneCache.get, hdata, dlookup_pyInsert_self]
    have htr : truthy (Val.obj (pyInsertAll [("fetched_at", Val.int now)] v)) = true :=
      truthy_obj_ne_nil _ hne
    have hlegf : isLegacy (Val.obj (pyInsertAll [("fetched_at", Val.int now)] v)) = false := by
      simp only [isLegacy, hasKey_pyInsertAll]
      have h1 : hasKey ([("fetched_at", Val.int now)] : Dict) "summary" = false := rfl
      have h2 : hasKey ([("fetched_at", Val.int now)] : Dict) "data" = false := rfl
      rcases hleg with h | h <;> simp [h1, h2, h]
    simp [htr, hlegf]
  · intro kv hkv
    exact dlookup_pyInsertAll_hasKey v _ kv.1 hnd
      ((hasKey_iff_mem_keys v kv.1).mpr (List.mem_map_of_mem Prod.fst hkv))
  · intro hfa
    rw [dlookup_pyInsertAll_not_hasKey v _ _ hfa]
    simp [dlookup]

/-- C5 witness at a concrete input. -/
theorem claim_C5_witness :
    (GeneCache.get (GeneCache.set cacheEmpty "G"
        [("symbol", Val.str "BRCA1"), ("summary", Val.str "Test")] 7).1 "G").1 =
      some (Val.obj (pyInsertAll [("fetched_at", Val.int 7)]
        [("symbol", Val.str "BRCA1"), ("summary", Val.str "Test")])) ∧
    (∀ kv ∈ ([("symbol", Val.str "BRCA1"), ("summary", Val.str "Test")] : Dict),
      dlookup (pyInsertAll [("fetched_at", Val.int 7)]
        [("symbol", Val.str "BRCA1"), ("summary", Val.str "Test")]) kv.1 =
      dlookup [("symbol", Val.str "BRCA1"), ("summary", Val.str "Test")] kv.1) ∧
    (hasKey [("symbol", Val.str "BRCA1"), ("summary", Val.str "Test")] "fetched_at" = false →
      dlookup (pyInsertAll [("fetched_at", Val.int 7)]
        [("symbol", Val.str "BRCA1"), ("summary", Val.str "Test")]) "fetched_at" =
        some (Val.int 7)) :=
  claim_C5 cacheEmpty "G" [("symbol", Val.str "BRCA1"), ("summary", Val.str "Test")] 7
    (by decide) (Or.inl (by decide))

/-- C6 (confirmed): a stored dict with a `data` field and no `summary`
field is treated as absent by `get`; the entry is deleted in memory, a
second `get` also returns absent, the deletion reaches the disk when the
save succeeds, and a failing save is swallowed (the call still returns
absent and the disk keeps its old contents). -/
theorem claim_C6 (c : GeneCache) (k : String) (fs : Dict)
    (hnd : (c.data.map Prod.fst).Nodup)
    (hv : dlookup c.data (pyUpper k) = some (Val.obj fs))
    (hdata : hasKey fs "data" = true)
    (hsum : hasKey fs "summary" = false) :
    (GeneCache.get c k).1 = none ∧
    (GeneCache.get c k).2.1.data = pyErase c.data (pyUpper k) ∧
    (GeneCache.get (GeneCache.get c k).2.1 k).1 = none ∧
    (c.saveOk = true → (GeneCache.get c k).2.1.disk = pyErase c.data (pyUpper k)) ∧
    (c.saveOk = false → (GeneCache.get c k).2.1.disk = c.disk) := by
  have htr : truthy (Val.obj fs) = true := truthy_obj_ne_nil _ (hasKey_ne_nil fs "data" hdata)
  have hlegt : isLegacy (Val.obj fs) = true := by
    simp [isLegacy, hdata, hsum]
  have hget : GeneCache.get c k =
      (none, (GeneCache.save { c with data := pyErase c.data (pyUpper k) }).1,
        (GeneCache.save { c with data := pyErase c.data (pyUpper k) }).2) := by
    simp [GeneCache.get, hv, htr, hlegt]
  refine ⟨by rw [hget], ?_, ?_, ?_, ?_⟩
  · rw [hget, save_data]
  · rw [hget]
    have h2 : dlookup (GeneCache.save { c with data := pyErase c.data (pyUpper k) }).1.data
        (pyUpper k) = none := by
      rw [save_data]
      exact dlookup_pyErase_self c.data (pyUpper k) hnd
    simp [GeneCache.get, h2]
  · intro hok
    rw [hget]
    simp [GeneCache.save, hok]
  · intro hfail
    rw [hget]
    simp [GeneCache.save, hfail]

/-- C6 witness at a concrete input. -/
theorem claim_C6_witness :
    (GeneCache.get cacheLegacy "OLDGENE").1 = none ∧
    (GeneCache.get cacheLegacy "OLDGENE").2.1.data = pyErase cacheLegacy.data (pyUpper "OLDGENE") ∧
    (GeneCache.get (GeneCache.get cacheLegacy "OLDGENE").2.1 "OLDGENE").1 = none ∧
    (cacheLegacy.saveOk = true →
      (GeneCache.get cacheLegacy "OLDGENE").2.1.disk = pyErase cacheLegacy.data (pyUpper "OLDGENE")) ∧
    (cacheLegacy.saveOk = false →
      (GeneCache.get cacheLegacy "OLDGENE").2.1.disk = cacheLegacy.disk) :=
  claim_C6 cacheLegacy "OLDGENE"
    [("fetched_at", Val.int 12345), ("data", Val.str "old format")]
    (by decide) (by decide) (by decide) (by decide)

/-- C8 (counterexample): a response whose `Content-Type` is not JSON but
whose body still decodes as JSON is **returned**, not raised — the
adapter first tries `resp.json()` before treating the content type as an
authentication wall. -/
theorem claim_C8_cx :
    fetch_gene_from_genecards
      (GCResponse.resp "text/html" (some (Val.obj [("summary", Val.str "portal")]))) =
      Except.ok (Val.obj [("summary", Val.str "portal")]) := by
  decide

/-- C8 (amended): when the `Content-Type` is not JSON **and** the body
fails to decode as JSON, the adapter raises the recoverable
authentication-required `RuntimeError`; it never signals not-found in
any case (its only outcomes are a decoded payload or a raised error). -/
theorem claim_C8 (ct : String) (h : isSubstr "application/json" (pyLower ct) = false) :
    fetch_gene_from_genecards (GCResponse.resp ct none) =
      Except.error "GeneALaCart did not return JSON (likely requires authentication)." := by
  simp [fetch_gene_from_genecards, h]

/-- C8 witness at a concrete input. -/
theorem claim_C8_witness :
    fetch_gene_from_genecards (GCResponse.resp "text/html" none) =
      Except.error "GeneALaCart did not return JSON (likely requires authentication)." :=
  claim_C8 "text/html" (by decide)

/-- C3 (counterexample): with the default cache (`cache=None`), the
`GeneCache()` construction reads the cache file **before** validation,
so a whitespace-only symbol still causes one cache-file read before the
`ValueError` is raised. -/
theorem claim_C3_cx :
    (getGeneData envNone 0 "   " none).result = Except.error (Err.valueError "Empty gene symbol") ∧
    (getGeneData envNone 0 "   " none).trace = [Effect.cacheFileRead] := by
  decide

/-- A blank normalized key makes the resolver fail validation at once. -/
theorem getGeneData_emptyKey (env : Env) (now : Nat) (gene : String) (c : GeneCache)
    (h : pyUpper (pyStrip gene) = "") :
    getGeneData env now gene (some c) =
      ⟨Except.error (Err.valueError "Empty gene symbol"), c, []⟩ := by
  simp [getGeneData, h]

/-- C3 (amended): when a cache instance is passed in, an empty or
whitespace-only symbol raises `ValueError` before any I/O: no adapter is
invoked, no cache file is read or written (empty effect trace), and the
cache is untouched.  With `cache=None` the default construction reads
the cache file first (see the counterexample). -/
theorem claim_C3 (env : Env) (now : Nat) (gene : String) (c : GeneCache)
    (h : pyUpper (pyStrip gene) = "") :
    getGeneData env now gene (some c) =
      ⟨Except.error (Err.valueError "Empty gene symbol"), c, []⟩ :=
  getGeneData_emptyKey env now gene c h

/-- C3 witness at a concrete input. -/
theorem claim_C3_witness :
    getGeneData envNone 0 "   " (some cacheEmpty) =
      ⟨Except.error (Err.valueError "Empty gene symbol"), cacheEmpty, []⟩ :=
  claim_C3 envNone 0 "   " cacheEmpty (by decide)

/-! ### Miss-path machinery -/

theorem missSelect_fail_fail_fail (env : Env) (K : String) (m1 m2 : String)
    (hgc : fetch_gene_from_genecards env.gcResp = Except.error m1)
    (hct : fetch_details_via_ncbi env K = Except.error m2)
    (hen : fetch_gene_info_via_entrez env K = none) :
    missSelect env K = (Except.error (Err.geneNotFound ("Gene " ++ K ++ " not found")),
      [Effect.callGenecards, Effect.callNcbiDetails, Effect.callEntrezInfo]) := by
  simp [missSelect, hgc, hct, hen]

theorem missSelect_fail_ncbi (env : Env) (K : String) (m1 : String) (d : Dict)
    (hgc : fetch_gene_from_genecards env.gcResp = Except.error m1)
    (hct : fetch_details_via_ncbi env K = Except.ok d) :
    missSelect env K = (Except.ok (some d, "ncbi", none),
      [Effect.callGenecards, Effect.callNcbiDetails]) := by
  simp [missSelect, hgc, hct]

theorem missSelect_fail_entrez (env : Env) (K : String) (m1 m2 : String) (d : Dict)
    (hgc : fetch_gene_from_genecards env.gcResp = Except.error m1)
    (hct : fetch_details_via_ncbi env K = Except.error m2)
    (hen : fetch_gene_info_via_entrez env K = some d) :
    missSelect env K = (Except.ok (some d, "entrez", none),
      [Effect.callGenecards, Effect.callNcbiDetails, Effect.callEntrezInfo]) := by
  simp [missSelect, hgc, hct, hen]

theorem missSelect_portal_bothFail (env : Env) (K : String) (gc : Val) (s m2 : String)
    (hgc : fetch_gene_from_genecards env.gcResp = Except.ok gc)
    (hex : extractSummary gc K = some s)
    (hct : fetch_details_via_ncbi env K = Except.error m2)
    (hen : fetch_gene_info_via_entrez env K = none) :
    missSelect env K = (Except.ok (none, "genecards", some s),
      [Effect.callGenecards, Effect.callNcbiDetails, Effect.callEntrezInfo]) := by
  simp [missSelect, hgc, hex, hct, hen]

/-- Invariant of the record under construction in `buildOut`: keys stay
duplicate-free, the dict stays non-empty, keeps its `summary` and
`geneid` keys, and keeps the `source` tag and creation timestamp. -/
def OutInv (now : Nat) (source : String) (d : Dict) : Prop :=
  (d.map Prod.fst).Nodup ∧ d ≠ [] ∧ hasKey d "summary" = true ∧ hasKey d "geneid" = true ∧
  dlookup d "source" = some (Val.str source) ∧ dlookup d "fetched_at" = some (Val.int now)

theorem OutInv_pyInsert (now : Nat) (source : String) (d : Dict) (k : String) (v : Val)
    (h : OutInv now source d) (h1 : k ≠ "source") (h2 : k ≠ "fetched_at") :
    OutInv now source (pyInsert d k v) := by
  obtain ⟨hnd, hne, hsum, hgid, hsrc, hfa⟩ := h
  refine ⟨nodupKeys_pyInsert d k v hnd, pyInsert_ne_nil d k v, ?_, ?_, ?_, ?_⟩
  · exact hasKey_pyInsert_of d "summary" k v hsum
  · exact hasKey_pyInsert_of d "geneid" k v hgid
  · rw [dlookup_pyInsert_ne d k "source" v (fun he => h1 he.symm)]
    exact hsrc
  · rw [dlookup_pyInsert_ne d k "fetched_at" v (fun he => h2 he.symm)]
    exact hfa

theorem OutInv_out0 (now : Nat) (K : String) (source : String) :
    OutInv now source [("symbol", Val.str K), ("summary", Val.null),
      ("geneid", Val.null), ("chromosome", Val.null), ("map_location", Val.null),
      ("ncbi_url", Val.null), ("genecards_url", Val.null), ("source", Val.str source),
      ("fetched_at", Val.int now)] := by
  refine ⟨?_, ?_, ?_, ?_, ?_, ?_⟩ <;> first
    | rfl
    | simp [dlookup, hasKey]

theorem OutInv_update5 (now : Nat) (source : String) (d : Dict) (v1 v2 v3 v4 v5 : Val)
    (h : OutInv now source d) :
    OutInv now source (pyInsertAll d [("symbol", v1), ("summary", v2), ("geneid", v3),
      ("chromosome", v4), ("map_location", v5)]) := by
  obtain ⟨hnd, hne, hsum, hgid, hsrc, hfa⟩ := h
  have hupd : ∀ w1 w2 w3 w4 w5 : Val,
      hasKey ([("symbol", w1), ("summary", w2), ("geneid", w3), ("chromosome", w4),
        ("map_location", w5)] : Dict) "source" = false ∧
      hasKey ([("symbol", w1), ("summary", w2), ("geneid", w3), ("chromosome", w4),
        ("map_location", w5)] : Dict) "fetched_at" = false := by
    intro w1 w2 w3 w4 w5
    exact ⟨rfl, rfl⟩
  refine ⟨nodupKeys_pyInsertAll _ d hnd, pyInsertAll_ne_nil _ d hne, ?_, ?_, ?_, ?_⟩
  · rw [hasKey_pyInsertAll]
    simp [hsum]
  · rw [hasKey_pyInsertAll]
    simp [hgid]
  · rw [dlookup_pyInsertAll_not_hasKey _ d "source" (hupd v1 v2 v3 v4 v5).1]
    exact hsrc
  · rw [dlookup_pyInsertAll_not_hasKey _ d "fetched_at" (hupd v1 v2 v3 v4 v5).2]
    exact hfa

/-- The record built by `buildOut` keeps the invariant and carries an
`entrez_summary` key. -/
theorem buildOut_facts (env : Env) (now : Nat) (K : String) (details : Option Dict)
    (source : String) (summary : Option String) :
    OutInv now source (buildOut env now K details source summary).1 ∧
    hasKey (buildOut env now K details source summary).1 "entrez_summary" = true := by
  simp only [buildOut]
  set out0 : Dict := [("symbol", Val.str K), ("summary", Val.null),
    ("geneid", Val.null), ("chromosome", Val.null), ("map_location", Val.null),
    ("ncbi_url", Val.null), ("genecards_url", Val.null), ("source", Val.str source),
    ("fetched_at", Val.int now)] with hout0
  have h0 : OutInv now source out0 := OutInv_out0 now K source
  have h1 : OutInv now source (match details with
      | some d =>
        if !d.isEmpty then
          pyInsertAll out0 [("symbol", pyOr (pyGet d "symbol") (Val.str K)),
            ("summary", pyGet d "description"), ("geneid", pyGet d "geneid"),
            ("chromosome", pyGet d "chromosome"), ("map_location", pyGet d "map_location")]
        else out0
      | none => out0) := by
    match details with
    | none => exact h0
    | some d =>
      by_cases hd : d.isEmpty
      · simpa [hd] using h0
      · simp only [hd]
        simpa using OutInv_update5 now source out0 _ _ _ _ _ h0
  generalize (match details with
      | some d =>
        if !d.isEmpty then
          pyInsertAll out0 [("symbol", pyOr (pyGet d "symbol") (Val.str K)),
            ("summary", pyGet d "description"), ("geneid", pyGet d "geneid"),
            ("chromosome", pyGet d "chromosome"), ("map_location", pyGet d "map_location")]
        else out0
      | none => out0) = out1 at h1 ⊢
  have h2 : OutInv now source (if truthy (pyGet out1 "geneid") then
      pyInsert out1 "ncbi_url"
        (Val.str ("https://www.ncbi.nlm.nih.gov/gene/" ++ valPyStr (pyGet out1 "geneid")))
    else out1) := by
    by_cases hg : truthy (pyGet out1 "geneid")
    · simpa [hg] using OutInv_pyInsert now source out1 "ncbi_url" _ h1 (by decide) (by decide)
    · simpa [hg] using h1
  generalize (if truthy (pyGet out1 "geneid") then
      pyInsert out1 "ncbi_url"
        (Val.str ("https://www.ncbi.nlm.nih.gov/gene/" ++ valPyStr (pyGet out1 "geneid")))
    else out1) = out2 at h2 ⊢
  have h3 : OutInv now source (pyInsert out2 "genecards_url"
      (Val.str ("https://www.genecards.org/cgi-bin/carddisp.pl?gene=" ++ valPyStr (pyGet out2 "symbol")))) :=
    OutInv_pyInsert now source out2 "genecards_url" _ h2 (by decide) (by decide)
  generalize pyInsert out2 "genecards_url"
      (Val.str ("https://www.genecards.org/cgi-bin/carddisp.pl?gene=" ++ valPyStr (pyGet out2 "symbol"))) = out3 at h3 ⊢
  have h4 : ∀ w : Val, OutInv now source (pyInsert out3 "entrez_summary" w) ∧
      hasKey (pyInsert out3 "entrez_summary" w) "entrez_summary" = true := by
    intro w
    refine ⟨OutInv_pyInsert now source out3 "entrez_summary" w h3 (by decide) (by decide), ?_⟩
    rw [hasKey_pyInsert]
    simp
  have h5 : ∀ d4 : Dict, OutInv now source d4 → hasKey d4 "entrez_summary" = true →
      OutInv now source (match summary with
        | some s => if s ≠ "" then pyInsert d4 "summary" (Val.str s) else d4
        | none => d4) ∧
      hasKey (match summary with
        | some s => if s ≠ "" then pyInsert d4 "summary" (Val.str s) else d4
        | none => d4) "entrez_summary" = true := by
    intro d4 hinv hent
    match summary with
    | none => exact ⟨hinv, hent⟩
    | some s =>
      by_cases hs : s = ""
      · simp only [hs]
        simpa using ⟨hinv, hent⟩
      · simp only [hs]
        refine ⟨?_, ?_⟩
        · simpa [hs] using OutInv_pyInsert now source d4 "summary" (Val.str s) hinv (by decide) (by decide)
        · simpa [hs] using hasKey_pyInsert_of d4 "entrez_summary" "summary" (Val.str s) hent
  by_cases hg3 : truthy (pyGet out3 "geneid")
  · simp only [hg3, if_true]
    exact h5 _ (h4 _).1 (h4 _).2
  · simp only [hg3, if_false]
    exact h5 _ (h4 _).1 (h4 _).2

/-- The record stamped into the cache by `GeneCache.set`. -/
def stamp (now : Nat) (out : Dict) : Dict :=
  pyInsertAll [("fetched_at", Val.int now)] out

theorem stamp_lookup (now : Nat) (out : Dict) (k : String)
    (hnd : (out.map Prod.fst).Nodup) (hk : hasKey out k = true) :
    dlookup (stamp now out) k = dlookup out k :=
  dlookup_pyInsertAll_hasKey out _ k hnd hk

theorem stamp_hasKey (now : Nat) (out : Dict) (k : String) :
    hasKey (stamp now out) k = (hasKey ([("fetched_at", Val.int now)] : Dict) k || hasKey out k) :=
  hasKey_pyInsertAll _ out k

theorem stamp_ne_nil (now : Nat) (out : Dict) : stamp now out ≠ [] :=
  pyInsertAll_ne_nil out _ (by simp)

/-- A cache miss (whatever made `get` return absent) whose source
selection succeeds: the resolver builds the record, stamps and stores it
under the key, and returns the freshly re-read stored record. -/
theorem getGeneData_missGet_ok (env : Env) (now : Nat) (gene : String) (c c2 : GeneCache)
    (tr1 : List Effect)
    (details : Option Dict) (source : String) (summary : Option String) (trm : List Effect)
    (hkey : pyUpper (pyStrip gene) ≠ "")
    (hget : GeneCache.get c (pyUpper (pyStrip gene)) = (none, c2, tr1))
    (hms : missSelect env (pyUpper (pyStrip gene)) = (Except.ok (details, source, summary), trm)) :
    (getGeneData env now gene (some c)).result = Except.ok (Val.obj (stamp now
      (buildOut env now (pyUpper (pyStrip gene)) details source summary).1)) ∧
    (getGeneData env now gene (some c)).cache.data = pyInsert c2.data (pyUpper (pyStrip gene))
      (Val.obj (stamp now (buildOut env now (pyUpper (pyStrip gene)) details source summary).1)) ∧
    (getGeneData env now gene (some c)).cache.saveOk = c2.saveOk := by
  have hKK : pyUpper (pyUpper (pyStrip gene)) = pyUpper (pyStrip gene) :=
    pyUpper_pyUpper (pyStrip gene)
  obtain ⟨⟨hnd, hne, hsum, _, _, _⟩, _⟩ :=
    buildOut_facts env now (pyUpper (pyStrip gene)) details source summary
  set K := pyUpper (pyStrip gene) with hK
  set out := (buildOut env now K details source summary).1 with hout
  have hstne : stamp now out ≠ [] := stamp_ne_nil now out
  have hsthask : hasKey (stamp now out) "summary" = true := by
    rw [stamp_hasKey]
    simp [hsum]
  have hsttr : truthy (Val.obj (stamp now out)) = true := truthy_obj_ne_nil _ hstne
  have hstleg : isLegacy (Val.obj (stamp now out)) = false := by
    simp [isLegacy, hsthask]
  have hsetdata : (GeneCache.set c2 K out now).1.data =
      pyInsert c2.data K (Val.obj (stamp now out)) := by
    simp only [GeneCache.set, save_data, stamp, hKK]
  have hget2 : GeneCache.get (GeneCache.set c2 K out now).1 K =
      (some (Val.obj (stamp now out)), (GeneCache.set c2 K out now).1, []) := by
    simp only [GeneCache.get, hsetdata, hKK, dlookup_pyInsert_self, hsttr, hstleg]
    simp
  have hsetok : (GeneCache.set c2 K out now).1.saveOk = c2.saveOk := by
    simp only [GeneCache.set, save_saveOk]
  simp only [getGeneData, if_neg hkey, hget, hms, ← hK, ← hout, hget2]
  refine ⟨rfl, ?_, ?_⟩
  · rw [hsetdata]
  · rw [hsetok]

/-- Specialisation of `getGeneData_missGet_ok` to a key plainly absent
from the cache. -/
theorem getGeneData_miss_ok (env : Env) (now : Nat) (gene : String) (c : GeneCache)
    (details : Option Dict) (source : String) (summary : Option String) (trm : List Effect)
    (hkey : pyUpper (pyStrip gene) ≠ "")
    (hmiss : dlookup c.data (pyUpper (pyStrip gene)) = none)
    (hms : missSelect env (pyUpper (pyStrip gene)) = (Except.ok (details, source, summary), trm)) :
    (getGeneData env now gene (some c)).result = Except.ok (Val.obj (stamp now
      (buildOut env now (pyUpper (pyStrip gene)) details source summary).1)) ∧
    (getGeneData env now gene (some c)).cache.data = pyInsert c.data (pyUpper (pyStrip gene))
      (Val.obj (stamp now (buildOut env now (pyUpper (pyStrip gene)) details source summary).1)) ∧
    (getGeneData env now gene (some c)).cache.saveOk = c.saveOk :=
  getGeneData_missGet_ok env now gene c c [] details source summary trm hkey
    (cacheGet_of_dlookup_none c _ (by rw [pyUpper_pyUpper]; exact hmiss)) hms

/-- A cache miss (whatever made `get` return absent) whose source
selection raises: the exception propagates and the post-`get` cache is
returned untouched. -/
theorem getGeneData_missGet_error (env : Env) (now : Nat) (gene : String) (c c2 : GeneCache)
    (tr1 : List Effect) (e : Err) (trm : List Effect)
    (hkey : pyUpper (pyStrip gene) ≠ "")
    (hget : GeneCache.get c (pyUpper (pyStrip gene)) = (none, c2, tr1))
    (hms : missSelect env (pyUpper (pyStrip gene)) = (Except.error e, trm)) :
    getGeneData env now gene (some c) = ⟨Except.error e, c2, tr1 ++ trm⟩ := by
  simp only [getGeneData, if_neg hkey, hget, hms]
  simp

theorem getGeneData_miss_error (env : Env) (now : Nat) (gene : String) (c : GeneCache)
    (e : Err) (trm : List Effect)
    (hkey : pyUpper (pyStrip gene) ≠ "")
    (hmiss : dlookup c.data (pyUpper (pyStrip gene)) = none)
    (hms : missSelect env (pyUpper (pyStrip gene)) = (Except.error e, trm)) :
    getGeneData env now gene (some c) = ⟨Except.error e, c, trm⟩ := by
  have h := getGeneData_missGet_error env now gene c c [] e trm hkey
    (cacheGet_of_dlookup_none c _ (by rw [pyUpper_pyUpper]; exact hmiss)) hms
  simpa using h

/-- C2 (confirmed): for a symbol not in the cache, when the portal
adapter raises, the first structured lookup raises not-found, and the
second returns absent, `get_gene_data` raises `GeneNotFoundError` and
the cache (memory and disk) is exactly as before — the trace holds only
the three adapter calls, no cache write. -/
theorem claim_C2 (env : Env) (now : Nat) (gene : String) (c : GeneCache)
    (hkey : pyUpper (pyStrip gene) ≠ "")
    (hmiss : dlookup c.data (pyUpper (pyStrip gene)) = none)
    (hgc : ∃ m, fetch_gene_from_genecards env.gcResp = Except.error m)
    (hct : ∃ m, fetch_details_via_ncbi env (pyUpper (pyStrip gene)) = Except.error m)
    (hen : fetch_gene_info_via_entrez env (pyUpper (pyStrip gene)) = none) :
    getGeneData env now gene (some c) =
      ⟨Except.error (Err.geneNotFound ("Gene " ++ pyUpper (pyStrip gene) ++ " not found")), c,
        [Effect.callGenecards, Effect.callNcbiDetails, Effect.callEntrezInfo]⟩ := by
  obtain ⟨m1, hgc⟩ := hgc
  obtain ⟨m2, hct⟩ := hct
  exact getGeneData_miss_error env now gene c _ _ hkey hmiss
    (missSelect_fail_fail_fail env _ m1 m2 hgc hct hen)

/-- C2 witness at a concrete input. -/
theorem claim_C2_witness :
    getGeneData envNone 0 "FAKEGENE123" (some cacheEmpty) =
      ⟨Except.error (Err.geneNotFound "Gene FAKEGENE123 not found"), cacheEmpty,
        [Effect.callGenecards, Effect.callNcbiDetails, Effect.callEntrezInfo]⟩ := by
  have h := claim_C2 envNone 0 "FAKEGENE123" cacheEmpty (by decide) (by decide)
    ⟨"Network error while contacting GeneALaCart: boom", by decide⟩
    ⟨"Gene FAKEGENE123 not found in NCBI database", by decide⟩ (by decide)
  simpa using h

/-- C1 (confirmed): on the cache-miss path with the portal adapter
raising a recoverable failure, the resolved record's `source` tag is
`"ncbi"` when the first structured lookup returns a match, and
`"entrez"` when the first raises not-found but the second succeeds. -/
theorem claim_C1 (env : Env) (now : Nat) (gene : String) (c : GeneCache)
    (hkey : pyUpper (pyStrip gene) ≠ "")
    (hmiss : dlookup c.data (pyUpper (pyStrip gene)) = none)
    (hgc : ∃ m, fetch_gene_from_genecards env.gcResp = Except.error m) :
    (∀ d, fetch_details_via_ncbi env (pyUpper (pyStrip gene)) = Except.ok d →
      ∃ gs, (getGeneData env now gene (some c)).result = Except.ok (Val.obj gs) ∧
        dlookup gs "source" = some (Val.str "ncbi")) ∧
    ((∃ m, fetch_details_via_ncbi env (pyUpper (pyStrip gene)) = Except.error m) →
      ∀ d, fetch_gene_info_via_entrez env (pyUpper (pyStrip gene)) = some d →
      ∃ gs, (getGeneData env now gene (some c)).result = Except.ok (Val.obj gs) ∧
        dlookup gs "source" = some (Val.str "entrez")) := by
  obtain ⟨m1, hgc⟩ := hgc
  constructor
  · intro d hct
    obtain ⟨hres, _, _⟩ := getGeneData_miss_ok env now gene c (some d) "ncbi" none _
      hkey hmiss (missSelect_fail_ncbi env _ m1 d hgc hct)
    refine ⟨_, hres, ?_⟩
    obtain ⟨⟨hnd, _, _, _, hsrc, _⟩, _⟩ :=
      buildOut_facts env now (pyUpper (pyStrip gene)) (some d) "ncbi" none
    rw [stamp_lookup now _ "source" hnd (by simp [hasKey, hsrc])]
    exact hsrc
  · intro hct d hen
    obtain ⟨m2, hct⟩ := hct
    obtain ⟨hres, _, _⟩ := getGeneData_miss_ok env now gene c (some d) "entrez" none _
      hkey hmiss (missSelect_fail_entrez env _ m1 m2 d hgc hct hen)
    refine ⟨_, hres, ?_⟩
    obtain ⟨⟨hnd, _, _, _, hsrc, _⟩, _⟩ :=
      buildOut_facts env now (pyUpper (pyStrip gene)) (some d) "entrez" none
    rw [stamp_lookup now _ "source" hnd (by simp [hasKey, hsrc])]
    exact hsrc

/-- C1 witness at concrete inputs for both fallback stages. -/
theorem claim_C1_witness :
    (∃ gs, (getGeneData envNcbi 100 "brca1" (some cacheEmpty)).result = Except.ok (Val.obj gs) ∧
      dlookup gs "source" = some (Val.str "ncbi")) ∧
    (∃ gs, (getGeneData envEntrez 100 "BRCA1" (some cacheEmpty)).result = Except.ok (Val.obj gs) ∧
      dlookup gs "source" = some (Val.str "entrez")) := by
  constructor
  · exact (claim_C1 envNcbi 100 "brca1" cacheEmpty (by decide) (by decide)
      ⟨"Network error while contacting GeneALaCart: boom", by decide⟩).1
      [("symbol", Val.str "BRCA1"), ("description", Val.str "BRCA1 DNA repair associated"),
        ("geneid", Val.null), ("chromosome", Val.null), ("map_location", Val.null)]
      (by decide)
  · exact (claim_C1 envEntrez 100 "BRCA1" cacheEmpty (by decide) (by decide)
      ⟨"Network error while contacting GeneALaCart: boom", by decide⟩).2
      ⟨"Gene BRCA1 not found in NCBI database", by decide⟩
      [("symbol", Val.str "BRCA1"), ("geneid", Val.str "672"), ("chromosome", Val.str "17"),
        ("map_location", Val.str "17q21.31"),
        ("description", Val.str "BRCA1 DNA repair associated")]
      (by decide)

/-- With no details dict and a non-empty portal summary, `buildOut`
yields exactly this record (identifier and location fields null). -/
theorem buildOut_none_ne (env : Env) (now : Nat) (K : String) (source : String) (s : String)
    (hs : s ≠ "") :
    buildOut env now K none source (some s) =
      ([("symbol", Val.str K), ("summary", Val.str s), ("geneid", Val.null),
        ("chromosome", Val.null), ("map_location", Val.null), ("ncbi_url", Val.null),
        ("genecards_url",
          Val.str ("https://www.genecards.org/cgi-bin/carddisp.pl?gene=" ++ K)),
        ("source", Val.str source), ("fetched_at", Val.int now),
        ("entrez_summary", Val.null)], []) := by
  simp [buildOut, pyGet, dlookup, truthy, valPyStr, pyInsert, hs]

/-- With no details dict and an **empty** portal summary, the built
record's `summary` stays null (the `if summary:` guard is falsy). -/
theorem buildOut_none_empty (env : Env) (now : Nat) (K : String) (source : String) :
    buildOut env now K none source (some "") =
      ([("symbol", Val.str K), ("summary", Val.null), ("geneid", Val.null),
        ("chromosome", Val.null), ("map_location", Val.null), ("ncbi_url", Val.null),
        ("genecards_url",
          Val.str ("https://www.genecards.org/cgi-bin/carddisp.pl?gene=" ++ K)),
        ("source", Val.str source), ("fetched_at", Val.int now),
        ("entrez_summary", Val.null)], []) := by
  simp [buildOut, pyGet, dlookup, truthy, valPyStr, pyInsert]

/-- C10 (amended): on a cache miss where the portal adapter succeeds and
a summary string is extracted, even when the first structured lookup
raises not-found and the second returns absent, `get_gene_data` does
**not** raise: it returns and caches a record with source
`"genecards"` and null `geneid`, `chromosome` and `map_location`; the
record's `summary` equals the extracted portal summary when that summary
is non-empty, but is null when the extracted summary is the empty string
(the `if summary:` truthiness guard drops it). -/
theorem claim_C10 (env : Env) (now : Nat) (gene : String) (c : GeneCache)
    (gc : Val) (s : String)
    (hkey : pyUpper (pyStrip gene) ≠ "")
    (hmiss : dlookup c.data (pyUpper (pyStrip gene)) = none)
    (hgc : fetch_gene_from_genecards env.gcResp = Except.ok gc)
    (hex : extractSummary gc (pyUpper (pyStrip gene)) = some s)
    (hct : ∃ m, fetch_details_via_ncbi env (pyUpper (pyStrip gene)) = Except.error m)
    (hen : fetch_gene_info_via_entrez env (pyUpper (pyStrip gene)) = none) :
    ∃ gs, (getGeneData env now gene (some c)).result = Except.ok (Val.obj gs) ∧
      (getGeneData env now gene (some c)).cache.data =
        pyInsert c.data (pyUpper (pyStrip gene)) (Val.obj gs) ∧
      dlookup gs "source" = some (Val.str "genecards") ∧
      dlookup gs "geneid" = some Val.null ∧
      dlookup gs "chromosome" = some Val.null ∧
      dlookup gs "map_location" = some Val.null ∧
      (s ≠ "" → dlookup gs "summary" = some (Val.str s)) ∧
      (s = "" → dlookup gs "summary" = some Val.null) := by
  obtain ⟨m2, hct⟩ := hct
  obtain ⟨hres, hdata, _⟩ := getGeneData_miss_ok env now gene c none "genecards" (some s) _
    hkey hmiss (missSelect_portal_bothFail env _ gc s m2 hgc hex hct hen)
  refine ⟨_, hres, hdata, ?_⟩
  obtain ⟨⟨hnd, _, _, _, _, _⟩, _⟩ :=
    buildOut_facts env now (pyUpper (pyStrip gene)) none "genecards" (some s)
  by_cases hs : s = ""
  · subst hs
    rw [buildOut_none_empty] at hnd ⊢
    refine ⟨?_, ?_, ?_, ?_, ?_, ?_⟩
    · rw [stamp_lookup now _ _ hnd (by simp [hasKey, dlookup])]
      simp [dlookup]
    · rw [stamp_lookup now _ _ hnd (by simp [hasKey, dlookup])]
      simp [dlookup]
    · rw [stamp_lookup now _ _ hnd (by simp [hasKey, dlookup])]
      simp [dlookup]
    · rw [stamp_lookup now _ _ hnd (by simp [hasKey, dlookup])]
      simp [dlookup]
    · intro h
      exact absurd rfl h
    · intro _
      rw [stamp_lookup now _ _ hnd (by simp [hasKey, dlookup])]
      simp [dlookup]
  · rw [buildOut_none_ne env now _ "genecards" s hs] at hnd ⊢
    refine ⟨?_, ?_, ?_, ?_, ?_, ?_⟩
    · rw [stamp_lookup now _ _ hnd (by simp [hasKey, dlookup])]
      simp [dlookup]
    · rw [stamp_lookup now _ _ hnd (by simp [hasKey, dlookup])]
      simp [dlookup]
    · rw [stamp_lookup now _ _ hnd (by simp [hasKey, dlookup])]
      simp [dlookup]
    · rw [stamp_lookup now _ _ hnd (by simp [hasKey, dlookup])]
      simp [dlookup]
    · intro _
      rw [stamp_lookup now _ _ hnd (by simp [hasKey, dlookup])]
      simp [dlookup]
    · intro h
      exact absurd h hs

/-- C10 witness at a concrete input (non-empty portal summary). -/
theorem claim_C10_witness :
    ∃ gs, (getGeneData envPortal 100 "BRCA1" (some cacheEmpty)).result = Except.ok (Val.obj gs) ∧
      (getGeneData envPortal 100 "BRCA1" (some cacheEmpty)).cache.data =
        pyInsert cacheEmpty.data (pyUpper (pyStrip "BRCA1")) (Val.obj gs) ∧
      dlookup gs "source" = some (Val.str "genecards") ∧
      dlookup gs "geneid" = some Val.null ∧
      dlookup gs "chromosome" = some Val.null ∧
      dlookup gs "map_location" = some Val.null ∧
      ("portal summary" ≠ "" → dlookup gs "summary" = some (Val.str "portal summary")) ∧
      ("portal summary" = "" → dlookup gs "summary" = some Val.null) :=
  claim_C10 envPortal 100 "BRCA1" cacheEmpty (Val.obj [("summary", Val.str "portal summary")])
    "portal summary" (by decide) (by decide) (by decide) (by decide)
    ⟨"Gene BRCA1 not found in NCBI database", by decide⟩ (by decide)

/-- C10 (counterexample): when the extracted portal summary is the empty
string, the resolver still does not raise, but the cached record's
`summary` is null rather than the extracted summary — so "the record's
summary is the extracted portal summary" fails as stated. -/
theorem claim_C10_cx :
    extractSummary (Val.obj [("summary", Val.str "")]) "BRCA1" = some "" ∧
    (getGeneData envPortalEmpty 100 "BRCA1" (some cacheEmpty)).result =
      Except.ok (Val.obj (stamp 100 [("symbol", Val.str "BRCA1"), ("summary", Val.null),
        ("geneid", Val.null), ("chromosome", Val.null), ("map_location", Val.null),
        ("ncbi_url", Val.null),
        ("genecards_url",
          Val.str "https://www.genecards.org/cgi-bin/carddisp.pl?gene=BRCA1"),
        ("source", Val.str "genecards"), ("fetched_at", Val.int 100),
        ("entrez_summary", Val.null)])) ∧
    dlookup (stamp 100 [("symbol", Val.str "BRCA1"), ("summary", Val.null),
        ("geneid", Val.null), ("chromosome", Val.null), ("map_location", Val.null),
        ("ncbi_url", Val.null),
        ("genecards_url",
          Val.str "https://www.genecards.org/cgi-bin/carddisp.pl?gene=BRCA1"),
        ("source", Val.str "genecards"), ("fetched_at", Val.int 100),
        ("entrez_summary", Val.null)]) "summary" = some Val.null ∧
    Val.null ≠ Val.str "" := by
  refine ⟨by decide, by decide, by decide, by decide⟩

/-! ### The cache-hit enrichment path -/

theorem truthy_pyGet_ne_nil (fs : Dict) (k : String) (h : truthy (pyGet fs k) = true) :
    fs ≠ [] := by
  intro he
  subst he
  simp [pyGet, dlookup, truthy] at h

theorem hasKey_of_truthy_pyGet (fs : Dict) (k : String) (h : truthy (pyGet fs k) = true) :
    hasKey fs k = true := by
  rw [hasKey]
  cases hl : dlookup fs k with
  | none => simp [pyGet, hl, truthy] at h
  | some v => rfl

/-- C7 (confirmed): a cache hit on a record that has a truthy `geneid`,
a null `entrez_summary`, and a `fetched_at` field, where the high-trust
summary fetch yields a truthy value `es`: the call returns the enriched
record, and the re-persisted record agrees with the previous one on
every key other than `entrez_summary` — in particular `fetched_at` keeps
its original value `fa` and is not advanced to the `set`-time `now`. -/
theorem claim_C7 (env : Env) (now : Nat) (gene : String) (c : GeneCache) (fs : Dict)
    (es fa : Val)
    (hkey : pyUpper (pyStrip gene) ≠ "")
    (hv : dlookup c.data (pyUpper (pyStrip gene)) = some (Val.obj fs))
    (hnd : (fs.map Prod.fst).Nodup)
    (hleg : isLegacy (Val.obj fs) = false)
    (hgid : truthy (pyGet fs "geneid") = true)
    (hent : pyGet fs "entrez_summary" = Val.null)
    (hes : fetch_summary_from_entrez env (pyGet fs "geneid") = es)
    (hestr : truthy es = true)
    (hfa : dlookup fs "fetched_at" = some fa) :
    (getGeneData env now gene (some c)).result =
      Except.ok (Val.obj (pyInsert fs "entrez_summary" es)) ∧
    dlookup (getGeneData env now gene (some c)).cache.data (pyUpper (pyStrip gene)) =
      some (Val.obj (stamp now (pyInsert fs "entrez_summary" es))) ∧
    dlookup (stamp now (pyInsert fs "entrez_summary" es)) "fetched_at" = some fa ∧
    dlookup (stamp now (pyInsert fs "entrez_summary" es)) "entrez_summary" = some es ∧
    (∀ k, k ≠ "entrez_summary" →
      dlookup (stamp now (pyInsert fs "entrez_summary" es)) k = dlookup fs k) := by
  have hKK : pyUpper (pyUpper (pyStrip gene)) = pyUpper (pyStrip gene) :=
    pyUpper_pyUpper (pyStrip gene)
  set K := pyUpper (pyStrip gene) with hK
  have htr : truthy (Val.obj fs) = true :=
    truthy_obj_ne_nil fs (truthy_pyGet_ne_nil fs "geneid" hgid)
  have hv2 : dlookup c.data (pyUpper K) = some (Val.obj fs) := by rw [hKK]; exact hv
  have hget : GeneCache.get c K = (some (Val.obj fs), c, []) := by
    simp [GeneCache.get, hv2, htr, hleg]
  set fs2 := pyInsert fs "entrez_summary" es with hfs2
  have hnd2 : (fs2.map Prod.fst).Nodup := nodupKeys_pyInsert fs _ es hnd
  have hfa2 : dlookup fs2 "fetched_at" = some fa := by
    rw [hfs2, dlookup_pyInsert_ne fs _ _ es (by decide)]
    exact hfa
  have hfahk : hasKey fs2 "fetched_at" = true := by
    simp [hasKey, hfa2]
  have henthk : hasKey fs2 "entrez_summary" = true := by
    simp [hasKey, hfs2, dlookup_pyInsert_self]
  have hrun : getGeneData env now gene (some c) =
      ⟨Except.ok (Val.obj fs2), (GeneCache.set c K fs2 now).1,
        [] ++ [] ++ [Effect.callEntrezSummary] ++ (GeneCache.set c K fs2 now).2⟩ := by
    simp only [getGeneData, if_neg hkey, hget, hgid, hent, hes, hestr, ← hK, ← hfs2]
    simp
  refine ⟨by rw [hrun], ?_, ?_, ?_, ?_⟩
  · rw [hrun]
    have hsd : (GeneCache.set c K fs2 now).1.data =
        pyInsert c.data K (Val.obj (stamp now fs2)) := by
      simp only [GeneCache.set, save_data, stamp, hKK]
    rw [hsd, dlookup_pyInsert_self]
  · rw [stamp_lookup now fs2 "fetched_at" hnd2 hfahk]
    exact hfa2
  · rw [stamp_lookup now fs2 "entrez_summary" hnd2 henthk, hfs2, dlookup_pyInsert_self]
  · intro k hk
    by_cases hhk : hasKey fs2 k = true
    · rw [stamp_lookup now fs2 k hnd2 hhk, hfs2,
        dlookup_pyInsert_ne fs _ k es (fun he => hk he)]
    · have hkfa : k ≠ "fetched_at" := by
        intro he
        subst he
        exact absurd hfahk hhk
      rw [stamp, dlookup_pyInsertAll_not_hasKey fs2 _ k (by simpa using hhk)]
      have hfsk : dlookup fs k = none := by
        cases hl : dlookup fs k with
        | none => rfl
        | some v =>
          exact absurd (hasKey_pyInsert_of fs k "entrez_summary" es (by simp [hasKey, hl])) (by
            rw [← hfs2]
            simpa using hhk)
      rw [hfsk]
      have hkfa2 : ¬("fetched_at" = k) := fun he => hkfa he.symm
      simp [dlookup, hkfa2]

/-- C7 witness at a concrete input: the stored record was created at
time 42; enrichment at time 100 adds the Entrez summary but keeps
`fetched_at = 42`. -/
theorem claim_C7_witness :
    (getGeneData envEnrich 100 "brca1" (some cacheHit)).result =
      Except.ok (Val.obj (pyInsert [("fetched_at", Val.int 42), ("symbol", Val.str "BRCA1"),
        ("summary", Val.str "x"), ("geneid", Val.str "672"), ("entrez_summary", Val.null)]
        "entrez_summary" (Val.str "tumor suppressor summary"))) ∧
    dlookup (getGeneData envEnrich 100 "brca1" (some cacheHit)).cache.data
        (pyUpper (pyStrip "brca1")) =
      some (Val.obj (stamp 100 (pyInsert [("fetched_at", Val.int 42),
        ("symbol", Val.str "BRCA1"), ("summary", Val.str "x"), ("geneid", Val.str "672"),
        ("entrez_summary", Val.null)] "entrez_summary" (Val.str "tumor suppressor summary")))) ∧
    dlookup (stamp 100 (pyInsert [("fetched_at", Val.int 42), ("symbol", Val.str "BRCA1"),
        ("summary", Val.str "x"), ("geneid", Val.str "672"), ("entrez_summary", Val.null)]
        "entrez_summary" (Val.str "tumor suppressor summary"))) "fetched_at" =
      some (Val.int 42) ∧
    dlookup (stamp 100 (pyInsert [("fetched_at", Val.int 42), ("symbol", Val.str "BRCA1"),
        ("summary", Val.str "x"), ("geneid", Val.str "672"), ("entrez_summary", Val.null)]
        "entrez_summary" (Val.str "tumor suppressor summary"))) "entrez_summary" =
      some (Val.str "tumor suppressor summary") ∧
    (∀ k, k ≠ "entrez_summary" →
      dlookup (stamp 100 (pyInsert [("fetched_at", Val.int 42), ("symbol", Val.str "BRCA1"),
        ("summary", Val.str "x"), ("geneid", Val.str "672"), ("entrez_summary", Val.null)]
        "entrez_summary" (Val.str "tumor suppressor summary"))) k =
      dlookup [("fetched_at", Val.int 42), ("symbol", Val.str "BRCA1"),
        ("summary", Val.str "x"), ("geneid", Val.str "672"), ("entrez_summary", Val.null)] k) :=
  claim_C7 envEnrich 100 "brca1" cacheHit
    [("fetched_at", Val.int 42), ("symbol", Val.str "BRCA1"), ("summary", Val.str "x"),
      ("geneid", Val.str "672"), ("entrez_summary", Val.null)]
    (Val.str "tumor suppressor summary") (Val.int 42)
    (by decide) (by decide) (by decide) (by decide) (by decide) (by decide) (by decide)
    (by decide) (by decide)

/-! ### Case-insensitive repeatability (claim C4) -/

/-- Python `==` on records: dicts compare as key-value mappings, other
values structurally. -/
def recordsMatch : Val → Val → Bool
  | Val.obj fs, Val.obj gs =>
    fs.all (fun kv => decide (dlookup fs kv.1 = dlookup gs kv.1)) &&
    gs.all (fun kv => decide (dlookup fs kv.1 = dlookup gs kv.1))
  | a, b => decide (a = b)

theorem recordsMatch_refl (v : Val) : recordsMatch v v = true := by
  cases v <;> simp [recordsMatch]

theorem recordsMatch_of_all (fs gs : Dict) (h : ∀ k, dlookup fs k = dlookup gs k) :
    recordsMatch (Val.obj fs) (Val.obj gs) = true := by
  simp [recordsMatch, List.all_eq_true, h]

/-- The record will not be mutated by a later cache hit: either it is
not a dict, or the lazy-enrichment guard cannot fire again (no truthy
gene id with a null `entrez_summary` whose fetch would be truthy). -/
def HitStable (env : Env) : Val → Prop
  | Val.obj fs => truthy (pyGet fs "geneid") = true → pyGet fs "entrez_summary" = Val.null →
      truthy (fetch_summary_from_entrez env (pyGet fs "geneid")) = false
  | _ => True

theorem pyGet_pyInsert_self (d : Dict) (k : String) (v : Val) :
    pyGet (pyInsert d k v) k = v := by
  simp [pyGet, dlookup_pyInsert_self]

theorem pyGet_pyInsert_ne (d : Dict) (k k' : String) (v : Val) (h : k' ≠ k) :
    pyGet (pyInsert d k v) k' = pyGet d k' := by
  simp [pyGet, dlookup_pyInsert_ne d k k' v h]

theorem dlookup_none_of_not_hasKey (fs : Dict) (k : String) (h : hasKey fs k = false) :
    dlookup fs k = none := by
  cases hl : dlookup fs k with
  | none => rfl
  | some v => simp [hasKey, hl] at h

/-- When the record already has a `fetched_at` key (with unique keys),
stamping it changes no lookup at all. -/
theorem stamp_lookup_all (now : Nat) (fs : Dict) (hnd : (fs.map Prod.fst).Nodup)
    (hfa : hasKey fs "fetched_at" = true) (k : String) :
    dlookup (stamp now fs) k = dlookup fs k := by
  by_cases hk : hasKey fs k = true
  · exact stamp_lookup now fs k hnd hk
  · have hk2 : hasKey fs k = false := by simpa using hk
    rw [stamp, dlookup_pyInsertAll_not_hasKey fs _ k hk2, dlookup_none_of_not_hasKey fs k hk2]
    have hkfa : ¬("fetched_at" = k) := by
      intro he
      subst he
      rw [hfa] at hk2
      exact absurd hk2 (by simp)
    simp [dlookup, hkfa]

/-- The record built by `buildOut` is already enrichment-stable: when it
carries a truthy gene id and a null `entrez_summary`, the Entrez summary
fetch for that id (in this environment) is falsy — otherwise the
summary would have been stored. -/
theorem buildOut_stable (env : Env) (now : Nat) (K : String) (details : Option Dict)
    (source : String) (summary : Option String) :
    truthy (pyGet (buildOut env now K details source summary).1 "geneid") = true →
    pyGet (buildOut env now K details source summary).1 "entrez_summary" = Val.null →
    truthy (fetch_summary_from_entrez env
      (pyGet (buildOut env now K details source summary).1 "geneid")) = false := by
  simp only [buildOut]
  set out0 : Dict := [("symbol", Val.str K), ("summary", Val.null),
    ("geneid", Val.null), ("chromosome", Val.null), ("map_location", Val.null),
    ("ncbi_url", Val.null), ("genecards_url", Val.null), ("source", Val.str source),
    ("fetched_at", Val.int now)] with hout0
  generalize (match details with
      | some d =>
        if !d.isEmpty then
          pyInsertAll out0 [("symbol", pyOr (pyGet d "symbol") (Val.str K)),
            ("summary", pyGet d "description"), ("geneid", pyGet d "geneid"),
            ("chromosome", pyGet d "chromosome"), ("map_location", pyGet d "map_location")]
        else out0
      | none => out0) = out1
  generalize (if truthy (pyGet out1 "geneid") then
      pyInsert out1 "ncbi_url"
        (Val.str ("https://www.ncbi.nlm.nih.gov/gene/" ++ valPyStr (pyGet out1 "geneid")))
    else out1) = out2
  generalize pyInsert out2 "genecards_url"
      (Val.str ("https://www.genecards.org/cgi-bin/carddisp.pl?gene=" ++ valPyStr (pyGet out2 "symbol"))) = out3
  rcases summary with _ | sp
  · by_cases hg : truthy (pyGet out3 "geneid") = true
    · by_cases hes : truthy (fetch_summary_from_entrez env (pyGet out3 "geneid")) = true
      · simp only [hg, if_true, hes]
        intro _ hent
        rw [pyGet_pyInsert_self] at hent
        exfalso
        rw [hent] at hes
        simp [truthy] at hes
      · simp only [hg, if_true]
        intro _ _
        rw [pyGet_pyInsert_ne out3 "entrez_summary" "geneid" _ (by decide)]
        simpa using hes
    · simp only [if_neg hg]
      intro hgid _
      exfalso
      rw [pyGet_pyInsert_ne out3 "entrez_summary" "geneid" _ (by decide)] at hgid
      exact hg hgid
  · by_cases hs : sp = ""
    · subst hs
      have hcond : ¬(("" : String) ≠ "") := by simp
      by_cases hg : truthy (pyGet out3 "geneid") = true
      · by_cases hes : truthy (fetch_summary_from_entrez env (pyGet out3 "geneid")) = true
        · simp only [hg, if_true, hes, if_neg hcond]
          intro _ hent
          rw [pyGet_pyInsert_self] at hent
          exfalso
          rw [hent] at hes
          simp [truthy] at hes
        · simp only [hg, if_true, if_neg hcond]
          intro _ _
          rw [pyGet_pyInsert_ne out3 "entrez_summary" "geneid" _ (by decide)]
          simpa using hes
      · simp only [if_neg hg, if_neg hcond]
        intro hgid _
        exfalso
        rw [pyGet_pyInsert_ne out3 "entrez_summary" "geneid" _ (by decide)] at hgid
        exact hg hgid
    · have hcond : (sp ≠ "") := hs
      by_cases hg : truthy (pyGet out3 "geneid") = true
      · by_cases hes : truthy (fetch_summary_from_entrez env (pyGet out3 "geneid")) = true
        · simp only [hg, if_true, hes, if_pos hcond]
          intro _ hent
          rw [pyGet_pyInsert_ne _ "summary" "entrez_summary" _ (by decide),
            pyGet_pyInsert_self] at hent
          exfalso
          rw [hent] at hes
          simp [truthy] at hes
        · simp only [hg, if_true, if_pos hcond]
          intro _ _
          rw [pyGet_pyInsert_ne _ "summary" "geneid" _ (by decide),
            pyGet_pyInsert_ne out3 "entrez_summary" "geneid" _ (by decide)]
          simpa using hes
      · simp only [if_neg hg, if_pos hcond]
        intro hgid _
        exfalso
        rw [pyGet_pyInsert_ne _ "summary" "geneid" _ (by decide),
          pyGet_pyInsert_ne out3 "entrez_summary" "geneid" _ (by decide)] at hgid
        exact hg hgid

/-- A cache hit on a truthy, non-legacy, enrichment-stable record
returns that record unchanged and leaves the cache untouched. -/
theorem getGeneData_hit (env : Env) (now : Nat) (gene : String) (c : GeneCache) (v : Val)
    (hkey : pyUpper (pyStrip gene) ≠ "")
    (hv : dlookup c.data (pyUpper (pyStrip gene)) = some v)
    (htr : truthy v = true) (hleg : isLegacy v = false)
    (hst : HitStable env v) :
    (getGeneData env now gene (some c)).result = Except.ok v ∧
    (getGeneData env now gene (some c)).cache = c := by
  have hget : GeneCache.get c (pyUpper (pyStrip gene)) = (some v, c, []) :=
    cacheGet_of_found c _ v (by rw [pyUpper_pyUpper]; exact hv) htr hleg
  cases v with
  | obj fs =>
    by_cases hg : truthy (pyGet fs "geneid") = true
    · by_cases he : pyGet fs "entrez_summary" = Val.null
      · have hfetch : truthy (fetch_summary_from_entrez env (pyGet fs "geneid")) = false :=
          hst hg he
        simp only [getGeneData, if_neg hkey, hget]
        simp [hg, he, hfetch]
      · simp only [getGeneData, if_neg hkey, hget]
        simp [hg, he]
    · simp only [getGeneData, if_neg hkey, hget]
      simp [hg]
  | str s =>
    simp only [getGeneData, if_neg hkey, hget]
    exact ⟨trivial, trivial⟩
  | int n =>
    simp only [getGeneData, if_neg hkey, hget]
    exact ⟨trivial, trivial⟩
  | null =>
    simp only [getGeneData, if_neg hkey, hget]
    exact ⟨trivial, trivial⟩
  | arr xs =>
    simp only [getGeneData, if_neg hkey, hget]
    exact ⟨trivial, trivial⟩

/-- After any successful call that went through the miss path, the key
holds a truthy, non-legacy, enrichment-stable record matching the
returned one. -/
theorem getGeneData_post_missGet (env : Env) (now : Nat) (gene : String) (c c2 : GeneCache)
    (tr1 : List Effect) (r : Val)
    (hkey : pyUpper (pyStrip gene) ≠ "")
    (hget : GeneCache.get c (pyUpper (pyStrip gene)) = (none, c2, tr1))
    (h1 : (getGeneData env now gene (some c)).result = Except.ok r) :
    ∃ r1, dlookup (getGeneData env now gene (some c)).cache.data (pyUpper (pyStrip gene)) =
        some r1 ∧
      recordsMatch r r1 = true ∧ truthy r1 = true ∧ isLegacy r1 = false ∧ HitStable env r1 := by
  cases hres : (missSelect env (pyUpper (pyStrip gene))).1 with
  | error e =>
    have hms : missSelect env (pyUpper (pyStrip gene)) =
        (Except.error e, (missSelect env (pyUpper (pyStrip gene))).2) := by
      rw [← hres]
    rw [getGeneData_missGet_error env now gene c c2 tr1 e _ hkey hget hms] at h1
    simp at h1
  | ok tri =>
    obtain ⟨details, source, summary⟩ := tri
    have hms : missSelect env (pyUpper (pyStrip gene)) =
        (Except.ok (details, source, summary), (missSelect env (pyUpper (pyStrip gene))).2) := by
      rw [← hres]
    obtain ⟨hres1, hdata, _⟩ := getGeneData_missGet_ok env now gene c c2 tr1 details source
      summary _ hkey hget hms
    rw [h1] at hres1
    have hr : r = Val.obj (stamp now
        (buildOut env now (pyUpper (pyStrip gene)) details source summary).1) := by
      simpa using hres1
    obtain ⟨⟨hnd, hne, hsum, hgid, _, _⟩, hentk⟩ :=
      buildOut_facts env now (pyUpper (pyStrip gene)) details source summary
    refine ⟨Val.obj (stamp now
      (buildOut env now (pyUpper (pyStrip gene)) details source summary).1), ?_, ?_, ?_, ?_, ?_⟩
    · rw [hdata, dlookup_pyInsert_self]
    · rw [hr]
      exact recordsMatch_refl _
    · exact truthy_obj_ne_nil _ (stamp_ne_nil now _)
    · have hks : hasKey (stamp now
          (buildOut env now (pyUpper (pyStrip gene)) details source summary).1) "summary" = true := by
        rw [stamp_hasKey]
        simp [hsum]
      simp [isLegacy, hks]
    · intro hg hent
      have e1 : pyGet (stamp now
          (buildOut env now (pyUpper (pyStrip gene)) details source summary).1) "geneid" =
          pyGet (buildOut env now (pyUpper (pyStrip gene)) details source summary).1 "geneid" := by
        simp only [pyGet]
        rw [stamp_lookup now _ _ hnd hgid]
      have e2 : pyGet (stamp now
          (buildOut env now (pyUpper (pyStrip gene)) details source summary).1) "entrez_summary" =
          pyGet (buildOut env now (pyUpper (pyStrip gene)) details source summary).1
            "entrez_summary" := by
        simp only [pyGet]
        rw [stamp_lookup now _ _ hnd hentk]
      rw [e1] at hg ⊢
      rw [e2] at hent
      exact buildOut_stable env now _ details source summary hg hent

/-- After any successful `get_gene_data` call on a well-formed cache
(dict records at the key carry `fetched_at` and duplicate-free keys),
the key holds a truthy, non-legacy, enrichment-stable record matching
the returned one. -/
theorem getGeneData_post (env : Env) (now : Nat) (gene : String) (c : GeneCache) (r : Val)
    (hwf : ∀ fs, dlookup c.data (pyUpper (pyStrip gene)) = some (Val.obj fs) →
      hasKey fs "fetched_at" = true ∧ (fs.map Prod.fst).Nodup)
    (h1 : (getGeneData env now gene (some c)).result = Except.ok r) :
    pyUpper (pyStrip gene) ≠ "" ∧
    ∃ r1, dlookup (getGeneData env now gene (some c)).cache.data (pyUpper (pyStrip gene)) =
        some r1 ∧
      recordsMatch r r1 = true ∧ truthy r1 = true ∧ isLegacy r1 = false ∧ HitStable env r1 := by
  have hkey : pyUpper (pyStrip gene) ≠ "" := by
    intro h
    rw [getGeneData_emptyKey env now gene c h] at h1
    exact absurd h1 (by simp)
  refine ⟨hkey, ?_⟩
  rcases hdl : dlookup c.data (pyUpper (pyStrip gene)) with _ | v
  · exact getGeneData_post_missGet env now gene c c [] r hkey
      (cacheGet_of_dlookup_none c _ (by rw [pyUpper_pyUpper]; exact hdl)) h1
  · by_cases htr : truthy v = true
    · by_cases hlegb : isLegacy v = true
      · exact getGeneData_post_missGet env now gene c _ _ r hkey
          (cacheGet_of_legacy c _ v (by rw [pyUpper_pyUpper]; exact hdl) htr hlegb) h1
      · have hlegf : isLegacy v = false := by simpa using hlegb
        have finish_hit : HitStable env v →
            ∃ r1, dlookup (getGeneData env now gene (some c)).cache.data
                (pyUpper (pyStrip gene)) = some r1 ∧
              recordsMatch r r1 = true ∧ truthy r1 = true ∧ isLegacy r1 = false ∧
              HitStable env r1 := by
          intro hst
          obtain ⟨hres1, hcache⟩ := getGeneData_hit env now gene c v hkey hdl htr hlegf hst
          rw [h1] at hres1
          have hr : r = v := by simpa using hres1
          refine ⟨v, ?_, ?_, htr, hlegf, hst⟩
          · rw [hcache]
            exact hdl
          · rw [hr]
            exact recordsMatch_refl v
        cases v with
        | obj fs =>
          by_cases hg : truthy (pyGet fs "geneid") = true
          · by_cases he : pyGet fs "entrez_summary" = Val.null
            · by_cases hes : truthy (fetch_summary_from_entrez env (pyGet fs "geneid")) = true
              · -- the enrichment mutation happens: use well-formedness
                obtain ⟨hfa, hnd⟩ := hwf fs hdl
                have hget : GeneCache.get c (pyUpper (pyStrip gene)) = (some (Val.obj fs), c, []) :=
                  cacheGet_of_found c _ _ (by rw [pyUpper_pyUpper]; exact hdl) htr hlegf
                have hrr : getGeneData env now gene (some c) =
                    ⟨Except.ok (Val.obj (pyInsert fs "entrez_summary"
                        (fetch_summary_from_entrez env (pyGet fs "geneid")))),
                      (GeneCache.set c (pyUpper (pyStrip gene)) (pyInsert fs "entrez_summary"
                        (fetch_summary_from_entrez env (pyGet fs "geneid"))) now).1,
                      [] ++ [] ++ [Effect.callEntrezSummary] ++
                        (GeneCache.set c (pyUpper (pyStrip gene)) (pyInsert fs "entrez_summary"
                          (fetch_summary_from_entrez env (pyGet fs "geneid"))) now).2⟩ := by
                  simp only [getGeneData, if_neg hkey, hget, hg, he, hes]
                  simp
                set es := fetch_summary_from_entrez env (pyGet fs "geneid") with hesdef
                set fs2 := pyInsert fs "entrez_summary" es with hfs2
                have hnd2 : (fs2.map Prod.fst).Nodup := nodupKeys_pyInsert fs _ es hnd
                have hfa2 : hasKey fs2 "fetched_at" = true :=
                  hasKey_pyInsert_of fs "fetched_at" _ es hfa
                have hr : r = Val.obj fs2 := by
                  rw [hrr] at h1
                  simp at h1
                  exact h1.symm
                have hsd : (GeneCache.set c (pyUpper (pyStrip gene)) fs2 now).1.data =
                    pyInsert c.data (pyUpper (pyStrip gene)) (Val.obj (stamp now fs2)) := by
                  simp only [GeneCache.set, save_data, stamp, pyUpper_pyUpper]
                refine ⟨Val.obj (stamp now fs2), ?_, ?_, ?_, ?_, ?_⟩
                · rw [hrr]
                  show dlookup (GeneCache.set c (pyUpper (pyStrip gene)) fs2 now).1.data
                      (pyUpper (pyStrip gene)) = _
                  rw [hsd, dlookup_pyInsert_self]
                · rw [hr]
                  exact recordsMatch_of_all fs2 (stamp now fs2)
                    (fun k => (stamp_lookup_all now fs2 hnd2 hfa2 k).symm)
                · exact truthy_obj_ne_nil _ (stamp_ne_nil now fs2)
                · have hks : hasKey (stamp now fs2) "summary" = hasKey fs "summary" := by
                    simp only [hasKey]
                    rw [stamp_lookup_all now fs2 hnd2 hfa2, hfs2,
                      dlookup_pyInsert_ne fs _ _ es (by decide)]
                  have hkd : hasKey (stamp now fs2) "data" = hasKey fs "data" := by
                    simp only [hasKey]
                    rw [stamp_lookup_all now fs2 hnd2 hfa2, hfs2,
                      dlookup_pyInsert_ne fs _ _ es (by decide)]
                  simp only [isLegacy] at hlegf ⊢
                  rw [hks, hkd]
                  exact hlegf
                · intro _ hent
                  exfalso
                  have hpe : pyGet (stamp now fs2) "entrez_summary" = es := by
                    simp only [pyGet]
                    rw [stamp_lookup_all now fs2 hnd2 hfa2, hfs2, dlookup_pyInsert_self]
                    rfl
                  rw [hpe] at hent
                  rw [hent] at hes
                  simp [truthy] at hes
              · exact finish_hit (fun _ _ => by simpa using hes)
            · exact finish_hit (fun _ he' => absurd he' he)
          · exact finish_hit (fun hg' _ => absurd hg' hg)
        | str s => exact finish_hit trivial
        | int n => exact finish_hit trivial
        | null => exact finish_hit trivial
        | arr xs => exact finish_hit trivial
    · have htrf : truthy v = false := by simpa using htr
      exact getGeneData_post_missGet env now gene c c [] r hkey
        (cacheGet_of_falsy c _ v (by rw [pyUpper_pyUpper]; exact hdl) htrf) h1

/-- C4 (amended): provided any dict record already cached under the
symbol's normalized key is well-formed (duplicate-free keys and a
`fetched_at` field — true of every record the resolver itself creates),
calling `get_gene_data(s)`, then `get_gene_data(s.lower())`, then
`get_gene_data(s.upper())` against the same cache with no intervening
adapter changes returns records that are identical as Python values
(dicts compared as key-value mappings): all case variants normalize to
the same cache key and hit the same entry.  Without the well-formedness
proviso a hand-edited record lacking `fetched_at` that is lazily
enriched on the first call falsifies the claim (see the
counterexample). -/
theorem claim_C4 (env : Env) (now1 now2 now3 : Nat) (gene : String) (c : GeneCache) (r1 : Val)
    (hwf : ∀ fs, dlookup c.data (pyUpper (pyStrip gene)) = some (Val.obj fs) →
      hasKey fs "fetched_at" = true ∧ (fs.map Prod.fst).Nodup)
    (h1 : (getGeneData env now1 gene (some c)).result = Except.ok r1) :
    ∃ r2 r3,
      (getGeneData env now2 (pyLower gene)
        (some (getGeneData env now1 gene (some c)).cache)).result = Except.ok r2 ∧
      (getGeneData env now3 (pyUpper gene)
        (some (getGeneData env now2 (pyLower gene)
          (some (getGeneData env now1 gene (some c)).cache)).cache)).result = Except.ok r3 ∧
      recordsMatch r1 r2 = true ∧ recordsMatch r1 r3 = true := by
  obtain ⟨hkey, r0, hlook, hmatch, htr0, hleg0, hst0⟩ := getGeneData_post env now1 gene c r1 hwf h1
  have hkey2 : pyUpper (pyStrip (pyLower gene)) ≠ "" := by
    rw [pyUpper_pyStrip_pyLower]
    exact hkey
  have hv2 : dlookup (getGeneData env now1 gene (some c)).cache.data
      (pyUpper (pyStrip (pyLower gene))) = some r0 := by
    rw [pyUpper_pyStrip_pyLower]
    exact hlook
  obtain ⟨hres2, hcache2⟩ := getGeneData_hit env now2 (pyLower gene)
    (getGeneData env now1 gene (some c)).cache r0 hkey2 hv2 htr0 hleg0 hst0
  have hkey3 : pyUpper (pyStrip (pyUpper gene)) ≠ "" := by
    rw [pyUpper_pyStrip_pyUpper]
    exact hkey
  have hv3 : dlookup (getGeneData env now2 (pyLower gene)
      (some (getGeneData env now1 gene (some c)).cache)).cache.data
      (pyUpper (pyStrip (pyUpper gene))) = some r0 := by
    rw [hcache2, pyUpper_pyStrip_pyUpper]
    exact hlook
  obtain ⟨hres3, _⟩ := getGeneData_hit env now3 (pyUpper gene)
    (getGeneData env now2 (pyLower gene)
      (some (getGeneData env now1 gene (some c)).cache)).cache r0 hkey3 hv3 htr0 hleg0 hst0
  exact ⟨r0, r0, hres2, hres3, hmatch, hmatch⟩

/-- C4 witness at a concrete input: a miss that resolves through
ClinicalTables, then two cache hits under the case variants. -/
theorem claim_C4_witness :
    ∃ r2 r3,
      (getGeneData envNcbi 101 (pyLower "brca1")
        (some (getGeneData envNcbi 100 "brca1" (some cacheEmpty)).cache)).result =
          Except.ok r2 ∧
      (getGeneData envNcbi 102 (pyUpper "brca1")
        (some (getGeneData envNcbi 101 (pyLower "brca1")
          (some (getGeneData envNcbi 100 "brca1" (some cacheEmpty)).cache)).cache)).result =
          Except.ok r3 ∧
      recordsMatch (Val.obj [("fetched_at", Val.int 100), ("symbol", Val.str "BRCA1"),
        ("summary", Val.str "BRCA1 DNA repair associated"), ("geneid", Val.null),
        ("chromosome", Val.null), ("map_location", Val.null), ("ncbi_url", Val.null),
        ("genecards_url", Val.str "https://www.genecards.org/cgi-bin/carddisp.pl?gene=BRCA1"),
        ("source", Val.str "ncbi"), ("entrez_summary", Val.null)]) r2 = true ∧
      recordsMatch (Val.obj [("fetched_at", Val.int 100), ("symbol", Val.str "BRCA1"),
        ("summary", Val.str "BRCA1 DNA repair associated"), ("geneid", Val.null),
        ("chromosome", Val.null), ("map_location", Val.null), ("ncbi_url", Val.null),
        ("genecards_url", Val.str "https://www.genecards.org/cgi-bin/carddisp.pl?gene=BRCA1"),
        ("source", Val.str "ncbi"), ("entrez_summary", Val.null)]) r3 = true :=
  claim_C4 envNcbi 100 101 102 "brca1" cacheEmpty
    (Val.obj [("fetched_at", Val.int 100), ("symbol", Val.str "BRCA1"),
      ("summary", Val.str "BRCA1 DNA repair associated"), ("geneid", Val.null),
      ("chromosome", Val.null), ("map_location", Val.null), ("ncbi_url", Val.null),
      ("genecards_url", Val.str "https://www.genecards.org/cgi-bin/carddisp.pl?gene=BRCA1"),
      ("source", Val.str "ncbi"), ("entrez_summary", Val.null)])
    (fun fs h => by simp [cacheEmpty, dlookup] at h)
    (by decide)

/-- C4 (counterexample): against a cache holding a hand-edited record
without `fetched_at` (gene id present, `entrez_summary` null), the first
call lazily enriches and returns the record still lacking `fetched_at`,
while the second call (lower-case variant of the symbol) returns the
re-persisted record carrying a fresh `fetched_at` stamp — the two
records differ as Python values, refuting the claim as stated. -/
theorem claim_C4_cx :
    (getGeneData envEnrich 100 "gene1" (some cacheTampered)).result =
      Except.ok (Val.obj [("geneid", Val.str "672"),
        ("entrez_summary", Val.str "tumor suppressor summary"), ("summary", Val.str "x")]) ∧
    (getGeneData envEnrich 101 (pyLower "gene1")
      (some (getGeneData envEnrich 100 "gene1" (some cacheTampered)).cache)).result =
      Except.ok (Val.obj [("fetched_at", Val.int 100), ("geneid", Val.str "672"),
        ("entrez_summary", Val.str "tumor suppressor summary"), ("summary", Val.str "x")]) ∧
    recordsMatch
      (Val.obj [("geneid", Val.str "672"),
        ("entrez_summary", Val.str "tumor suppressor summary"), ("summary", Val.str "x")])
      (Val.obj [("fetched_at", Val.int 100), ("geneid", Val.str "672"),
        ("entrez_summary", Val.str "tumor suppressor summary"), ("summary", Val.str "x")]) =
      false := by
  refine ⟨by decide, by decide, by decide⟩

end GeneBusiness
